import Mathlib

/-!
# Verification of the multitenant console backend against its specification

This file gives a shallow embedding, in Lean 4, of the parts of the
`api-files` Python source tree that the audited claims are about:

* the API-key service (`services/api_key_service.py`),
* the publish/square approval flow
  (`controllers/console/app/publish.py`, `services/publish_application_service.py`),
* the role-account service (`services/role_account_service.py`),
* the menu service (`services/menu_service.py`),
* the passport (token) service (`libs/passport.py`),
* the RAG workflow node (`core/workflow/nodes/rag/*`).

Database tables are embedded as Lean lists of row structures, sessions as
explicit state passing, raised exceptions as `Except` errors, SQL `NULL` as
`Option`, and Python dynamic typing as small explicit value types where the
source's behaviour depends on it.  Machine-generated row ids (Postgres
`uuid_generate_v4()` defaults) are modelled by a fresh-id counter carried in
the store.  Timestamps are natural numbers.
-/

namespace Spec2Proof

/-! ## Python value helpers

Some of the audited code branches on Python truthiness or compares values of
different runtime types.  These helpers make those semantics explicit:

* a Python `str` is falsy exactly when it is empty,
* `None` is falsy,
* comparing a `str` with an `int` (e.g. with an `IntEnum` member) with `==`
  is always `False` in Python.
-/

/-- Truthiness of an optional Python string (`None` and `""` are falsy). -/
def pyTruthy : Option String → Bool
  | none => false
  | some s => s ≠ ""

/-- A Python runtime value, restricted to the types that actually flow
through the compared expressions in the audited code. -/
inductive PyVal where
  | str (s : String)
  | int (n : Int)
deriving Repr, DecidableEq

/-- Python `==` between the values above: equal types compare by value,
`str == int` is `False` (this is exactly what happens when a string parsed
by `reqparse` is compared against an `IntEnum` member). -/
def pyEq : PyVal → PyVal → Bool
  | .str a, .str b => a == b
  | .int a, .int b => a == b
  | _, _ => false

/-! ## §1 API-key service (`services/api_key_service.py`)

The `api_keys` table row.  `start_date`/`end_date` are nullable timestamps;
`created_at` is a timestamp used for the descending ordering of the list
endpoint. -/

structure ApiKey where
  id : Nat
  tenant_id : String
  key : String
  resource_type : String
  resource_id : String
  resource_name : String
  validity_type : String
  start_date : Option Nat
  end_date : Option Nat
  authorized_person : String
  description : String
  is_active : Bool
  created_by : String
  created_at : Nat
deriving Repr, DecidableEq

/-- SQL `col >= v` where `col` is nullable: a `NULL` column never satisfies
the comparison (three-valued logic collapses to "not selected"). -/
def sqlGe (col : Option Nat) (v : Nat) : Bool :=
  match col with
  | some d => v ≤ d
  | none => false

/-- SQL `col < v` on a nullable column; `NULL` is never selected. -/
def sqlLt (col : Option Nat) (v : Nat) : Bool :=
  match col with
  | some d => d < v
  | none => false

/-- SQL `ilike '%pattern%'`: case-insensitive substring containment. -/
def ilikeContains (pattern hay : String) : Bool :=
  decide (pattern.toLower.data <:+: hay.toLower.data)

/-- `ApiKeyService.get_api_keys`, up to and including the `status` filter
(the source then orders by `created_at desc` and paginates; the filters
determine which keys are selected).  Each optional argument mirrors the
Python `if resource_type: ... if status: ...` truthiness guards, and the
three status branches are translated verbatim:

* `active`  : `end_date >= now AND is_active == True`
* `expired` : `validity_type == "limited" AND end_date < now`
* `inactive`: `is_active == False`

any other (truthy) status string applies no additional filter. -/
def get_api_keys_query (store : List ApiKey) (tenant_id : String)
    (resource_type resource_name authorized_person status : Option String)
    (now : Nat) : List ApiKey :=
  let q := store.filter (fun k => k.tenant_id == tenant_id)
  let q := if pyTruthy resource_type then
      q.filter (fun k => k.resource_type == resource_type.getD "")
    else q
  let q := if pyTruthy resource_name then
      q.filter (fun k => ilikeContains (resource_name.getD "") k.resource_name)
    else q
  let q := if pyTruthy authorized_person then
      q.filter (fun k => ilikeContains (authorized_person.getD "") k.authorized_person)
    else q
  if pyTruthy status then
    match status with
    | some "active" => q.filter (fun k => sqlGe k.end_date now && k.is_active)
    | some "expired" => q.filter (fun k => k.validity_type == "limited" && sqlLt k.end_date now)
    | some "inactive" => q.filter (fun k => !k.is_active)
    | _ => q
  else q

/-- `ApiKeyService.get_api_keys` proper: the filtered rows ordered by
`created_at` descending, then paginated (`db.paginate`). -/
def get_api_keys (store : List ApiKey) (tenant_id : String)
    (resource_type resource_name authorized_person status : Option String)
    (now page per_page : Nat) : List ApiKey :=
  let rows := get_api_keys_query store tenant_id
      resource_type resource_name authorized_person status now
  let sorted := rows.mergeSort (fun a b => b.created_at ≤ a.created_at)
  (sorted.drop ((page - 1) * per_page)).take per_page

/-! Errors of the API-key service (`services/errors/api_key.py`), plus the
Python `AttributeError` that an access to a missing attribute raises. -/

inductive ApiKeyError where
  | invalidResourceType (msg : String)
  | duplicateApiKey (msg : String)
  | attributeError (attr : String)
deriving Repr, DecidableEq

/-- An `apps` table row, as read by this slice ("mode" is the app mode
string, e.g. `"agent-chat"`, `"workflow"`). -/
structure App where
  id : String
  tenant_id : String
  name : String
  description : String
  mode : String
  icon_type : Option String
  icon : Option String
  icon_background : Option String
deriving Repr, DecidableEq

/-- The attribute names defined on the Python class `ApiKeyService` (one per
`def` in `services/api_key_service.py`).  Used to model Python attribute
lookup on the service object: accessing any other name raises
`AttributeError`. -/
def apiKeyServiceAttrs : List String :=
  ["create_api_key", "get_api_keys", "get_api_key", "get_api_key_by_key",
   "update_api_key", "delete_api_key", "toggle_api_key_status",
   "validate_api_key", "get_resources_for_selection", "log_api_key_usage",
   "_validate_resource_exists", "_generate_unique_key"]

/-- `ApiKeyService._validate_resource_exists` (note the trailing `s`): checks
the referenced app row exists for resource types `"agent"` and `"workflow"`
and silently accepts any other type. -/
def validate_resource_exists (apps : List App)
    (tenant_id resource_type resource_id : String) : Except ApiKeyError Unit :=
  if resource_type == "agent" then
    if (apps.filter (fun a =>
        a.id == resource_id && a.tenant_id == tenant_id && a.mode == "agent-chat")).isEmpty then
      .error (.invalidResourceType s!"Agent {resource_id} not found")
    else .ok ()
  else if resource_type == "workflow" then
    if (apps.filter (fun a =>
        a.id == resource_id && a.tenant_id == tenant_id && a.mode == "workflow")).isEmpty then
      .error (.invalidResourceType s!"Workflow {resource_id} not found")
    else .ok ()
  else .ok ()

/-- `ApiKeyService._generate_unique_key`: draw candidates from the generator
(`ApiKey.generate_key`, modelled as the supplied stream `genKey`), retrying
while the candidate already exists in the store, for at most the given
number of attempts; raise `DuplicateApiKeyError` when all attempts collide.
`attempt` is the index of the next candidate to draw. -/
def generate_unique_key_from (genKey : Nat → String) (store : List ApiKey) :
    Nat → Nat → Except ApiKeyError String
  | _, 0 => .error (.duplicateApiKey "Failed to generate unique API key")
  | attempt, fuel + 1 =>
    let key := genKey attempt
    if store.any (fun k => k.key == key) then
      generate_unique_key_from genKey store (attempt + 1) fuel
    else .ok key

/-- `ApiKeyService._generate_unique_key` with the source's `max_attempts = 10`. -/
def generate_unique_key (genKey : Nat → String) (store : List ApiKey) :
    Except ApiKeyError String :=
  generate_unique_key_from genKey store 0 10

/-- `ApiKeyService.create_api_key`.  After the resource-type check the
source evaluates `self._validate_resource_exist(...)` — an attribute that
does not exist on the service object (the method defined on the class is
`_validate_resource_exists`), so Python raises `AttributeError` there.  The
attribute lookup is modelled explicitly against `apiKeyServiceAttrs`; the
body that would run if the attribute existed is translated in the (dead)
`then` branch. -/
def create_api_key (genKey : Nat → String) (newId : Nat)
    (store : List ApiKey) (apps : List App)
    (tenant_id resource_type resource_id resource_name validity_type : String)
    (start_date end_date : Option Nat)
    (authorized_person description created_by : String)
    (now : Nat) : Except ApiKeyError (ApiKey × List ApiKey) :=
  if ¬ (resource_type = "agent-chat" ∨ resource_type = "workflow") then
    .error (.invalidResourceType s!"Invalid resource type: {resource_type}")
  else if "_validate_resource_exist" ∈ apiKeyServiceAttrs then
    -- dead branch: what the source would do if the attribute existed
    do
      validate_resource_exists apps tenant_id resource_type resource_id
      let key ← generate_unique_key genKey store
      let row : ApiKey :=
        { id := newId, tenant_id := tenant_id, key := key,
          resource_type := resource_type, resource_id := resource_id,
          resource_name := resource_name, validity_type := validity_type,
          start_date := start_date, end_date := end_date,
          authorized_person := authorized_person, description := description,
          is_active := true, created_by := created_by, created_at := now }
      .ok (row, store ++ [row])
  else
    .error (.attributeError "_validate_resource_exist")

/-- If a nullable date column is strictly before `now`, it is not `≥ now`. -/
theorem sqlGe_eq_false_of_sqlLt {col : Option Nat} {now : Nat}
    (h : sqlLt col now = true) : sqlGe col now = false := by
  cases col with
  | none => rfl
  | some d =>
    simp only [sqlLt, decide_eq_true_eq] at h
    simp only [sqlGe, decide_eq_false_iff_not]
    omega

/-- C6 — API key status filter semantics: in the list operation the
`active` filter selects exactly the tenant's keys with `end_date ≥ now` and
`is_active`; the `expired` filter selects exactly those with
`validity_type = "limited"` and `end_date < now`; the `inactive` filter
selects exactly those with `is_active = false`.  In particular a key with
`validity_type = "limited"` and a past `end_date` appears under `expired`
and not under `active`, and a key with `is_active = false` appears under
`inactive` regardless of its dates. -/
theorem api_key_status_filter_semantics (store : List ApiKey) (t : String)
    (now : Nat) (k : ApiKey) :
    (k ∈ get_api_keys_query store t none none none (some "active") now ↔
      k ∈ store ∧ k.tenant_id = t ∧ sqlGe k.end_date now = true ∧ k.is_active = true) ∧
    (k ∈ get_api_keys_query store t none none none (some "expired") now ↔
      k ∈ store ∧ k.tenant_id = t ∧ k.validity_type = "limited" ∧ sqlLt k.end_date now = true) ∧
    (k ∈ get_api_keys_query store t none none none (some "inactive") now ↔
      k ∈ store ∧ k.tenant_id = t ∧ k.is_active = false) ∧
    (k ∈ store → k.tenant_id = t → k.validity_type = "limited" →
      sqlLt k.end_date now = true →
      k ∈ get_api_keys_query store t none none none (some "expired") now ∧
      k ∉ get_api_keys_query store t none none none (some "active") now) ∧
    (k ∈ store → k.tenant_id = t → k.is_active = false →
      k ∈ get_api_keys_query store t none none none (some "inactive") now) := by
  have hact : k ∈ get_api_keys_query store t none none none (some "active") now ↔
      k ∈ store ∧ k.tenant_id = t ∧ sqlGe k.end_date now = true ∧ k.is_active = true := by
    simp [get_api_keys_query, pyTruthy, List.mem_filter]
    tauto
  have hexp : k ∈ get_api_keys_query store t none none none (some "expired") now ↔
      k ∈ store ∧ k.tenant_id = t ∧ k.validity_type = "limited" ∧ sqlLt k.end_date now = true := by
    simp [get_api_keys_query, pyTruthy, List.mem_filter]
    tauto
  have hina : k ∈ get_api_keys_query store t none none none (some "inactive") now ↔
      k ∈ store ∧ k.tenant_id = t ∧ k.is_active = false := by
    simp [get_api_keys_query, pyTruthy, List.mem_filter]
    tauto
  refine ⟨hact, hexp, hina, ?_, ?_⟩
  · intro hmem ht hv hlt
    refine ⟨hexp.mpr ⟨hmem, ht, hv, hlt⟩, fun hc => ?_⟩
    have := (hact.mp hc).2.2.1
    rw [sqlGe_eq_false_of_sqlLt hlt] at this
    exact Bool.false_ne_true this
  · intro hmem ht hia
    exact hina.mpr ⟨hmem, ht, hia⟩

/-- Witness for C6 at a concrete store: a limited key whose `end_date = 5`
lies in the past of `now = 10` is selected by the `expired` filter and not
by the `active` filter. -/
theorem api_key_status_filter_semantics_witness :
    ({ id := 0, tenant_id := "t", key := "k", resource_type := "workflow",
       resource_id := "r", resource_name := "n", validity_type := "limited",
       start_date := none, end_date := some 5, authorized_person := "",
       description := "", is_active := true, created_by := "u",
       created_at := 0 } : ApiKey) ∈
      get_api_keys_query
        [{ id := 0, tenant_id := "t", key := "k", resource_type := "workflow",
           resource_id := "r", resource_name := "n", validity_type := "limited",
           start_date := none, end_date := some 5, authorized_person := "",
           description := "", is_active := true, created_by := "u",
           created_at := 0 }] "t" none none none (some "expired") 10 ∧
    ({ id := 0, tenant_id := "t", key := "k", resource_type := "workflow",
       resource_id := "r", resource_name := "n", validity_type := "limited",
       start_date := none, end_date := some 5, authorized_person := "",
       description := "", is_active := true, created_by := "u",
       created_at := 0 } : ApiKey) ∉
      get_api_keys_query
        [{ id := 0, tenant_id := "t", key := "k", resource_type := "workflow",
           resource_id := "r", resource_name := "n", validity_type := "limited",
           start_date := none, end_date := some 5, authorized_person := "",
           description := "", is_active := true, created_by := "u",
           created_at := 0 }] "t" none none none (some "active") 10 :=
  (api_key_status_filter_semantics _ "t" 10 _).2.2.2.1
    (by simp) rfl rfl (by decide)

/-- C3 — `create_api_key`: a resource type outside `{agent-chat, workflow}`
fails with `InvalidResourceType` (as the claim states); but for every
resource type inside that set the call raises `AttributeError` on the
mistyped `self._validate_resource_exist` lookup before any key is generated
or persisted, instead of returning a new key row. -/
theorem create_api_key_attribute_error (genKey : Nat → String) (newId : Nat)
    (store : List ApiKey) (apps : List App)
    (tenant_id resource_type resource_id resource_name validity_type : String)
    (start_date end_date : Option Nat)
    (authorized_person description created_by : String) (now : Nat) :
    (¬ (resource_type = "agent-chat" ∨ resource_type = "workflow") →
      create_api_key genKey newId store apps tenant_id resource_type
          resource_id resource_name validity_type start_date end_date
          authorized_person description created_by now =
        .error (.invalidResourceType s!"Invalid resource type: {resource_type}")) ∧
    ((resource_type = "agent-chat" ∨ resource_type = "workflow") →
      create_api_key genKey newId store apps tenant_id resource_type
          resource_id resource_name validity_type start_date end_date
          authorized_person description created_by now =
        .error (.attributeError "_validate_resource_exist")) := by
  constructor
  · intro h
    simp only [create_api_key, if_pos h]
  · intro h
    rw [create_api_key, if_neg (not_not_intro h), if_neg (by decide)]

/-- Witness for C3: with the valid resource type `"workflow"` the create
call fails with the `AttributeError`, never reaching key generation. -/
theorem create_api_key_attribute_error_witness :
    create_api_key (fun _ => "key") 1 [] [] "t" "workflow" "r" "rn" "limited"
        none none "" "" "u" 0 =
      .error (.attributeError "_validate_resource_exist") :=
  (create_api_key_attribute_error (fun _ => "key") 1 [] [] "t" "workflow" "r"
      "rn" "limited" none none "" "" "u" 0).2 (Or.inr rfl)

/-! ## §2 Role-account service (`services/role_account_service.py`)

Rows of the RBAC tables used by `add_account_to_role`: `roles`,
`tenant_account_joins` (only the membership key matters here) and
`account_roles`. -/

structure Role where
  id : Nat
  tenant_id : String
  role_key : String
  role_name : String
  description : Option String
  is_active : Bool
deriving Repr, DecidableEq

structure TenantAccountJoin where
  tenant_id : String
  account_id : String
  role : String
  current : Bool
deriving Repr, DecidableEq

structure AccountRole where
  id : Nat
  tenant_id : String
  account_id : String
  role_id : Nat
deriving Repr, DecidableEq

/-- The store touched by the role-account service.  `accounts` maps account
id to display name (only the name is read here); `nextId` models the
database-generated primary keys. -/
structure RbacStore where
  roles : List Role
  joins : List TenantAccountJoin
  accountRoles : List AccountRole
  accounts : List (String × String)
  nextId : Nat
deriving Repr

/-- The two response shapes of `RoleAccountService.add_account_to_role`:
the "user already has this role" refusal and the success payload. -/
inductive AddAccountOutcome where
  | alreadyHas (role_name : String)
  | assigned (role_name : String) (account_name : String)
deriving Repr, DecidableEq

/-- `RoleAccountService.add_account_to_role`: validates the role belongs to
the tenant and the account is a tenant member; refuses if the exact
(tenant, account, role) row already exists; otherwise **deletes every
`AccountRole` row of that account in that tenant** and inserts a single new
row for the requested role. -/
def add_account_to_role (s : RbacStore) (tenant_id : String) (role_id : Nat)
    (account_id : String) : Except String (AddAccountOutcome × RbacStore) :=
  match s.roles.find? (fun r => r.id == role_id) with
  | none => .error "角色不存在或无权限"
  | some role =>
    if role.tenant_id ≠ tenant_id then .error "角色不存在或无权限"
    else
      match s.joins.find? (fun j =>
          j.tenant_id == tenant_id && j.account_id == account_id) with
      | none => .error "用户不属于当前租户"
      | some _ =>
        match s.accountRoles.find? (fun ar => ar.tenant_id == tenant_id &&
            ar.account_id == account_id && ar.role_id == role_id) with
        | some _ => .ok (.alreadyHas role.role_name, s)
        | none =>
          let remaining := s.accountRoles.filter (fun ar =>
            ¬ (ar.tenant_id == tenant_id && ar.account_id == account_id))
          let newRow : AccountRole :=
            { id := s.nextId, tenant_id := tenant_id,
              account_id := account_id, role_id := role_id }
          let accountName :=
            ((s.accounts.find? (fun a => a.1 == account_id)).map (·.2)).getD "未知用户"
          .ok (.assigned role.role_name accountName,
               { s with accountRoles := remaining ++ [newRow],
                        nextId := s.nextId + 1 })

/-- C7 — `add_account_to_role` is replace-all, not additive: when the role
is valid in the tenant, the account is a member, and the account does not
already hold the role, the call succeeds, afterwards the account's
`AccountRole` rows in that tenant are exactly one row carrying the new role,
and every other `AccountRole` row (other accounts or other tenants) is left
untouched. -/
theorem add_account_to_role_replaces_all (s : RbacStore) (t : String)
    (rid : Nat) (aid : String) (role : Role)
    (hrole : s.roles.find? (fun r => r.id == rid) = some role)
    (htenant : role.tenant_id = t)
    (hjoin : (s.joins.find? (fun j =>
        j.tenant_id == t && j.account_id == aid)).isSome)
    (hnotheld : s.accountRoles.find? (fun ar => ar.tenant_id == t &&
        ar.account_id == aid && ar.role_id == rid) = none) :
    ∃ name s', add_account_to_role s t rid aid = .ok (.assigned role.role_name name, s') ∧
      s'.accountRoles.filter (fun ar =>
          ar.tenant_id == t && ar.account_id == aid) =
        [{ id := s.nextId, tenant_id := t, account_id := aid, role_id := rid }] ∧
      (s'.accountRoles.filter (fun ar =>
          ar.tenant_id == t && ar.account_id == aid)).map (·.role_id) = [rid] ∧
      s'.accountRoles.filter (fun ar =>
          ¬ (ar.tenant_id == t && ar.account_id == aid)) =
        s.accountRoles.filter (fun ar =>
          ¬ (ar.tenant_id == t && ar.account_id == aid)) := by
  obtain ⟨j, hj⟩ := Option.isSome_iff_exists.mp hjoin
  refine ⟨((s.accounts.find? (fun a => a.1 == aid)).map (·.2)).getD "未知用户",
    { s with
      accountRoles := s.accountRoles.filter (fun ar =>
          ¬ (ar.tenant_id == t && ar.account_id == aid)) ++
          [{ id := s.nextId, tenant_id := t, account_id := aid, role_id := rid }],
      nextId := s.nextId + 1 }, ?_, ?_, ?_, ?_⟩
  · simp [add_account_to_role, hrole, hj, hnotheld, htenant]
  all_goals
    simp only [List.filter_append, List.filter_filter]
    simp [List.filter_eq_nil_iff]

/-- Witness for C7 on a concrete two-row store: the account's old role row
(for role 7) is deleted and replaced by a single row for role 5. -/
theorem add_account_to_role_replaces_all_witness :
    ∃ name s',
      add_account_to_role
        { roles := [{ id := 5, tenant_id := "t", role_key := "k",
                      role_name := "r5", description := none, is_active := true }],
          joins := [{ tenant_id := "t", account_id := "a", role := "normal",
                      current := true }],
          accountRoles := [{ id := 0, tenant_id := "t", account_id := "a",
                             role_id := 7 }],
          accounts := [("a", "Alice")], nextId := 1 } "t" 5 "a" =
        .ok (.assigned "r5" name, s') ∧
      s'.accountRoles.filter (fun ar =>
          ar.tenant_id == "t" && ar.account_id == "a") =
        [{ id := 1, tenant_id := "t", account_id := "a", role_id := 5 }] ∧
      (s'.accountRoles.filter (fun ar =>
          ar.tenant_id == "t" && ar.account_id == "a")).map (·.role_id) = [5] ∧
      s'.accountRoles.filter (fun ar =>
          ¬ (ar.tenant_id == "t" && ar.account_id == "a")) =
        ([{ id := 0, tenant_id := "t", account_id := "a",
            role_id := 7 }] : List AccountRole).filter (fun ar =>
          ¬ (ar.tenant_id == "t" && ar.account_id == "a")) :=
  add_account_to_role_replaces_all
    { roles := [{ id := 5, tenant_id := "t", role_key := "k",
                  role_name := "r5", description := none, is_active := true }],
      joins := [{ tenant_id := "t", account_id := "a", role := "normal",
                  current := true }],
      accountRoles := [{ id := 0, tenant_id := "t", account_id := "a",
                         role_id := 7 }],
      accounts := [("a", "Alice")], nextId := 1 } "t" 5 "a"
    { id := 5, tenant_id := "t", role_key := "k", role_name := "r5",
      description := none, is_active := true }
    (by decide) rfl (by decide) (by decide)

/-! ## §3 RAG workflow node (`core/workflow/nodes/rag/`)

### Entities (`entities.py`)

`RagTag` is the request-side tag: seven `Optional[str]` fields, all
defaulting to `""`. -/

structure RagTag where
  chi_pro : Option String := some ""
  chi_scene : Option String := some ""
  chi_spe : Option String := some ""
  chi_spec : Option String := some ""
  province_tag : Option String := some ""
  scene_tag : Option String := some ""
  specialty_tag : Option String := some ""
deriving Repr, DecidableEq

/-- A parsed variable selector, as returned by the platform's
`variable_template_parser.extract_selectors_from_template` (that parser
lives outside this source slice; the node code only reads the two
attributes below).  `var` stands for the Python attribute `variable`. -/
structure VariableSelector where
  var : String
  value_selector : List String
deriving Repr, DecidableEq

/-- `RagNodeData` (the node's static configuration).  `self_build_rag` is a
free-form dict; only its `"tag"` key is read by the node, holding either a
single tag dict or a list of them, where the entries may fail the
`isinstance(tag_data, dict)` check (modelled by `Option RagTag`: `none` is a
non-dict entry).  `score_threshold` is a float that is only passed through,
embedded as a rational. -/
structure RagNodeData where
  title : String := "RAG节点"
  desc : Option String := some ""
  type : String := "rag-node"
  ai_flag : Int := 1
  query : String := ""
  dataset_ids : List String := []
  selected : Bool := false
  params : String := ""
  retrieval_mode : String := "single"
  user_select_scene : String := ""
  self_build_rag : Option (Option (Sum (Option RagTag) (List (Option RagTag)))) := none
  tag : List RagTag := []
  score_threshold : Rat := (1 : Rat) / 2
  search_mode : String := "Approx"
  show_image : Bool := true
  top_k : Int := 3
deriving Repr, DecidableEq

/-- One retrieved context unit (`ContextItem`): four `Optional[str]` fields
defaulting to `""` (`none` models an explicit JSON `null`). -/
structure ContextItem where
  doc_name : Option String := some ""
  text : Option String := some ""
  img_url : Option String := some ""
  url : Option String := some ""
deriving Repr, DecidableEq

/-- `ResponseTag`: three required `str` fields. -/
structure ResponseTag where
  province_tag : String
  scene_tag : String
  specialty_tag : String
deriving Repr, DecidableEq

/-- `RagResponseData`. -/
structure RagResponseData where
  context : List ContextItem := []
  query : String := ""
  tag : List ResponseTag := []
deriving Repr, DecidableEq

/-- `RagResponse`: every field has a default, `data` is optional. -/
structure RagResponse where
  code : String := ""
  data : Option RagResponseData := none
  msg : String := ""
  status : String := ""
deriving Repr, DecidableEq

/-! ### Response parsing

The upstream body is JSON; `RagResponse(**response_data)` validates it with
pydantic.  We embed a JSON value type and the validation rules of the four
entity classes: a `str` field accepts exactly a JSON string (pydantic v2
does not coerce numbers to strings), an `Optional[str]` field additionally
accepts `null`, a missing field takes its default, an extra key is ignored,
and any violation raises `ValidationError` — a subclass of `ValueError`.
Unpacking a non-dict with `**` raises `TypeError` instead. -/

inductive Json where
  | null
  | bool (b : Bool)
  | num (n : Int)
  | str (s : String)
  | arr (xs : List Json)
  | obj (fields : List (String × Json))

/-- Python-level errors that `RagResponse(**body)` can raise. -/
inductive PyParseError where
  | validationError (msg : String)
  | typeError (msg : String)
deriving Repr, DecidableEq

/-- First value bound to `name` in a JSON object's field list. -/
def jsonGet (fields : List (String × Json)) (name : String) : Option Json :=
  (fields.find? (fun kv => kv.1 == name)).map (·.2)

/-- Validate a required `str` pydantic field. -/
def parseStr (fields : List (String × Json)) (name : String) (dflt : String) :
    Except PyParseError String :=
  match jsonGet fields name with
  | none => .ok dflt
  | some (.str s) => .ok s
  | some _ => .error (.validationError s!"{name}: Input should be a valid string")

/-- Validate an `Optional[str]` pydantic field with default `""`. -/
def parseOptStr (fields : List (String × Json)) (name : String) :
    Except PyParseError (Option String) :=
  match jsonGet fields name with
  | none => .ok (some "")
  | some .null => .ok none
  | some (.str s) => .ok (some s)
  | some _ => .error (.validationError s!"{name}: Input should be a valid string")

/-- Validate one `ContextItem` list entry (must be a JSON object). -/
def parseContextItem (j : Json) : Except PyParseError ContextItem :=
  match j with
  | .obj fs => do
    let doc_name ← parseOptStr fs "doc_name"
    let text ← parseOptStr fs "text"
    let img_url ← parseOptStr fs "img_url"
    let url ← parseOptStr fs "url"
    .ok { doc_name := doc_name, text := text, img_url := img_url, url := url }
  | _ => .error (.validationError "context item: Input should be an object")

/-- Validate a required `str` pydantic field with no default
(missing field → `Field required`). -/
def parseReqStr (fs : List (String × Json)) (name : String) :
    Except PyParseError String :=
  match jsonGet fs name with
  | some (.str s) => .ok s
  | some _ => .error (.validationError s!"{name}: Input should be a valid string")
  | none => .error (.validationError s!"{name}: Field required")

/-- Validate one `ResponseTag` entry: all three fields are required. -/
def parseResponseTag (j : Json) : Except PyParseError ResponseTag :=
  match j with
  | .obj fs => do
    let province ← parseReqStr fs "province_tag"
    let scene ← parseReqStr fs "scene_tag"
    let specialty ← parseReqStr fs "specialty_tag"
    .ok { province_tag := province, scene_tag := scene, specialty_tag := specialty }
  | _ => .error (.validationError "tag item: Input should be an object")

/-- Validate a `List[...]` pydantic field with `default_factory=list`:
missing → `[]`, a JSON array → validate each entry, anything else →
`ValidationError`. -/
def parseListField {α : Type} (fs : List (String × Json)) (name : String)
    (parseItem : Json → Except PyParseError α) : Except PyParseError (List α) :=
  match jsonGet fs name with
  | none => .ok []
  | some (.arr xs) => xs.mapM parseItem
  | some _ => .error (.validationError s!"{name}: Input should be a valid list")

/-- Validate `RagResponseData`. -/
def parseRagResponseData (j : Json) : Except PyParseError RagResponseData :=
  match j with
  | .obj fs => do
    let context ← parseListField fs "context" parseContextItem
    let query ← parseStr fs "query" ""
    let tag ← parseListField fs "tag" parseResponseTag
    .ok { context := context, query := query, tag := tag }
  | _ => .error (.validationError "data: Input should be an object")

/-- Validate the `Optional[RagResponseData]` field (default `None`). -/
def parseDataField (fs : List (String × Json)) :
    Except PyParseError (Option RagResponseData) :=
  match jsonGet fs "data" with
  | none => .ok none
  | some .null => .ok none
  | some dj => (parseRagResponseData dj).map some

/-- `RagResponse(**response_data)`: `**` on a non-dict raises `TypeError`;
on a dict, pydantic validates each field against its annotation and default.
-/
def parseRagResponse (j : Json) : Except PyParseError RagResponse :=
  match j with
  | .obj fs => do
    let code ← parseStr fs "code" ""
    let data ← parseDataField fs
    let msg ← parseStr fs "msg" ""
    let status ← parseStr fs "status" ""
    .ok { code := code, data := data, msg := msg, status := status }
  | _ => .error (.typeError "argument after ** must be a mapping")

/-! ### Node execution (`node.py`) -/

/-- Exceptions raised inside `_run`'s `try` block: the two `RagNodeError`
subclasses raised by `_send_rag_request`/`_run`, and any other exception
(e.g. the `TypeError` above), which only the final generic handler catches. -/
inductive RagRunExc where
  | ragRequestError (msg : String)
  | ragResponseError (msg : String)
  | otherExc (msg : String)
deriving Repr, DecidableEq

/-- What the outbound HTTP call produced, from the node's point of view:
a transport/status failure (`httpx.HTTPError`, including the one raised by
`raise_for_status`), a 2xx body that is not valid JSON (`response.json()`
raises `ValueError`), or a 2xx body parsed into a JSON value. -/
inductive HttpOutcome where
  | transportError (msg : String)
  | invalidJson (msg : String)
  | body (j : Json)

/-- `RagNode._send_rag_request` given the HTTP outcome: `httpx.HTTPError` is
re-raised as `RagRequestError`; a `ValueError` (invalid JSON, or pydantic's
`ValidationError` subclass) as `RagResponseError "Failed to parse
response"`; a `TypeError` from `**`-unpacking a non-dict is caught by
neither handler and propagates. -/
def send_rag_request (outcome : HttpOutcome) : Except RagRunExc RagResponse :=
  match outcome with
  | .transportError m => .error (.ragRequestError s!"HTTP request failed: {m}")
  | .invalidJson m => .error (.ragResponseError s!"Failed to parse response: {m}")
  | .body j =>
    match parseRagResponse j with
    | .ok r => .ok r
    | .error (.validationError m) =>
      .error (.ragResponseError s!"Failed to parse response: {m}")
    | .error (.typeError m) => .error (.otherExc m)

/-- Run status of a node execution. -/
inductive RunStatus where
  | succeeded
  | failed
deriving Repr, DecidableEq

/-- The `outputs` dict built by `_run` (`context` is only present on the
success branch; `data` is the dumped `response.data` or `None`). -/
structure RagOutputs where
  status : String
  msg : String
  data : Option RagResponseData
  context : Option (List ContextItem)
deriving Repr, DecidableEq

/-- The node run result (`NodeRunResult`), restricted to the fields `_run`
sets. -/
structure NodeRunResult where
  status : RunStatus
  outputs : Option RagOutputs := none
  error : Option String := none
  error_type : Option String := none
deriving Repr, DecidableEq

/-- `RagNode._run`, from the point where the request has been built:
dispatch on the response.  `continueOnError`/`retry` are the node's
`continue_on_error` and `retry` properties. -/
def rag_run (continueOnError retry : Bool) (outcome : HttpOutcome) :
    NodeRunResult :=
  match send_rag_request outcome with
  | .error (.ragRequestError m) =>
    { status := .failed, error := some m, error_type := some "RagRequestError" }
  | .error (.ragResponseError m) =>
    { status := .failed, error := some m, error_type := some "RagResponseError" }
  | .error (.otherExc m) =>
    { status := .failed, error := some s!"Unexpected error: {m}",
      error_type := some "UnexpectedError" }
  | .ok r =>
    if r.status ≠ "SUCCESS" then
      if continueOnError || retry then
        { status := .failed,
          outputs := some { status := r.status, msg := r.msg, data := r.data,
                            context := none },
          error := some r.msg, error_type := some "RagResponseError" }
      else
        -- `raise RagResponseError(response.msg)` caught by `except RagNodeError`
        { status := .failed, error := some r.msg,
          error_type := some "RagResponseError" }
    else
      { status := .succeeded,
        outputs := some { status := r.status, msg := r.msg, data := r.data,
                          context := some ((r.data.map (·.context)).getD []) } }

/-! ### Variable-selector extraction (`node.py`,
`_extract_variable_selector_to_variable_mapping`)

The template parser is platform code outside this slice, so the extraction
is parameterised by it (`extract`); everything else — which fields are
scanned, the truthiness filter, and the `node_id.variable` keying into a
dict — is translated from the node source. -/

/-- The tag fields scanned by the extraction loop, in source order
(`['chi_pro', 'chi_scene', 'chi_spe', 'chi_spec', 'province_tag',
'scene_tag', 'specialty_tag']`). -/
def ragTagFieldValues (t : RagTag) : List (Option String) :=
  [t.chi_pro, t.chi_scene, t.chi_spe, t.chi_spec,
   t.province_tag, t.scene_tag, t.specialty_tag]

/-- Insert-or-overwrite into a Python dict modelled as an insertion-ordered
association list (overwriting keeps the original position). -/
def dictInsert (m : List (String × List String)) (k : String)
    (v : List String) : List (String × List String) :=
  if m.any (fun kv => kv.1 == k) then
    m.map (fun kv => if kv.1 == k then (k, v) else kv)
  else m ++ [(k, v)]

/-- The selectors collected by the extraction: those of the query template,
then those of every truthy tag field of every tag, in order. -/
def ragNodeSelectors (extract : String → List VariableSelector)
    (data : RagNodeData) : List VariableSelector :=
  extract data.query ++
    data.tag.flatMap (fun tag =>
      (ragTagFieldValues tag).flatMap (fun v =>
        if pyTruthy v then extract (v.getD "") else []))

/-- `RagNode._extract_variable_selector_to_variable_mapping`: build the
`{node_id}.{selector.variable} ↦ selector.value_selector` dict from the
collected selectors. -/
def extract_variable_selector_to_variable_mapping
    (extract : String → List VariableSelector) (node_id : String)
    (data : RagNodeData) : List (String × List String) :=
  (ragNodeSelectors extract data).foldl
    (fun m sel => dictInsert m (node_id ++ "." ++ sel.var) sel.value_selector) []

/-! ### Lemmas about the extraction dictionary -/

/-- Appending `"." ++ a` to a fixed prefix is injective in `a`. -/
theorem key_ne_of_var_ne (nid : String) {a b : String} (h : a ≠ b) :
    nid ++ "." ++ a ≠ nid ++ "." ++ b := by
  intro he
  have hd := congrArg String.data he
  simp only [String.data_append] at hd
  exact h (String.ext (List.append_cancel_left hd))

/-- The inserted key is among the dict's keys. -/
theorem dictInsert_mem_keys (m : List (String × List String)) (k : String)
    (v : List String) : k ∈ (dictInsert m k v).map (·.1) := by
  unfold dictInsert
  split
  · next h =>
    obtain ⟨kv, hkv, he⟩ := List.any_eq_true.mp h
    refine List.mem_map.mpr ⟨(k, v), List.mem_map.mpr ⟨kv, hkv, ?_⟩, rfl⟩
    simp [he]
  · simp

/-- Insertion preserves the existing keys. -/
theorem dictInsert_keys_mono (m : List (String × List String)) (k : String)
    (v : List String) {k' : String} (h : k' ∈ m.map (·.1)) :
    k' ∈ (dictInsert m k v).map (·.1) := by
  unfold dictInsert
  split
  · obtain ⟨kv, hkv, he⟩ := List.mem_map.mp h
    by_cases hk : (kv.1 == k) = true
    · refine List.mem_map.mpr ⟨(k, v), List.mem_map.mpr ⟨kv, hkv, by simp [hk]⟩, ?_⟩
      have := beq_iff_eq.mp hk
      simp [← he, this]
    · exact List.mem_map.mpr ⟨kv, List.mem_map.mpr ⟨kv, hkv, by simp [hk]⟩, he⟩
  · simp [List.mem_map.mp h, List.map_append]

/-- Every key present before a fold of insertions is present after it. -/
theorem foldl_dictInsert_keys_mono (nid : String)
    (sels : List VariableSelector) (m : List (String × List String))
    {k' : String} (h : k' ∈ m.map (·.1)) :
    k' ∈ (sels.foldl (fun m sel =>
      dictInsert m (nid ++ "." ++ sel.var) sel.value_selector) m).map (·.1) := by
  induction sels generalizing m with
  | nil => exact h
  | cons s rest ih => exact ih _ (dictInsert_keys_mono _ _ _ h)

/-- Every selector inserted by the fold ends up among the keys. -/
theorem foldl_dictInsert_mem_keys (nid : String)
    (sels : List VariableSelector) (m : List (String × List String))
    {sel : VariableSelector} (h : sel ∈ sels) :
    (nid ++ "." ++ sel.var) ∈ (sels.foldl (fun m sel =>
      dictInsert m (nid ++ "." ++ sel.var) sel.value_selector) m).map (·.1) := by
  induction sels generalizing m with
  | nil => cases h
  | cons s rest ih =>
    rcases List.mem_cons.mp h with rfl | hmem
    · exact foldl_dictInsert_keys_mono nid rest _ (dictInsert_mem_keys _ _ _)
    · exact ih _ hmem

/-- C9 — RAG node variable extraction: for a node whose query template
references exactly one upstream variable (`s1`) and whose tag list holds one
tag with one populated tag-template field referencing a second variable
(`s2`), the extraction returns exactly two entries keyed
`{node_id}.{selector_name}` mapping to the selectors; and, in general, every
selector referenced in the query template or in a populated tag-template
field of any configuration appears among the mapping's keys. -/
theorem rag_extract_variable_mapping (extract : String → List VariableSelector)
    (nid q tpl : String) (s1 s2 : VariableSelector)
    (hq : extract q = [s1]) (htpl : tpl ≠ "") (hext : extract tpl = [s2])
    (hvar : s1.var ≠ s2.var) :
    extract_variable_selector_to_variable_mapping extract nid
        { query := q, tag := [{ chi_pro := some tpl }] } =
      [(nid ++ "." ++ s1.var, s1.value_selector),
       (nid ++ "." ++ s2.var, s2.value_selector)] ∧
    (extract_variable_selector_to_variable_mapping extract nid
        { query := q, tag := [{ chi_pro := some tpl }] }).length = 2 ∧
    (∀ (d : RagNodeData) (sel : VariableSelector),
      sel ∈ ragNodeSelectors extract d →
      (nid ++ "." ++ sel.var) ∈
        (extract_variable_selector_to_variable_mapping extract nid d).map (·.1)) := by
  have hsels : ragNodeSelectors extract
      { query := q, tag := [{ chi_pro := some tpl }] } = [s1, s2] := by
    simp [ragNodeSelectors, ragTagFieldValues, pyTruthy, htpl, hq, hext]
  have hmap : extract_variable_selector_to_variable_mapping extract nid
      { query := q, tag := [{ chi_pro := some tpl }] } =
      [(nid ++ "." ++ s1.var, s1.value_selector),
       (nid ++ "." ++ s2.var, s2.value_selector)] := by
    rw [extract_variable_selector_to_variable_mapping, hsels]
    simp only [List.foldl_cons, List.foldl_nil]
    rw [dictInsert, dictInsert]
    simp [key_ne_of_var_ne nid hvar]
  refine ⟨hmap, by rw [hmap]; rfl, ?_⟩
  intro d sel hmem
  exact foldl_dictInsert_mem_keys nid _ _ hmem

/-- Witness for C9 at a concrete template parser: queries `"{{#a#}}"` and
`"{{#b#}}"` resolve to two distinct selectors, and the mapping is exactly
the two expected entries. -/
theorem rag_extract_variable_mapping_witness :
    extract_variable_selector_to_variable_mapping
        (fun s => if s = "{{#a#}}" then [{ var := "a", value_selector := ["n0", "a"] }]
                  else if s = "{{#b#}}" then [{ var := "b", value_selector := ["n0", "b"] }]
                  else []) "rag1"
        { query := "{{#a#}}", tag := [{ chi_pro := some "{{#b#}}" }] } =
      [("rag1" ++ "." ++ "a", ["n0", "a"]), ("rag1" ++ "." ++ "b", ["n0", "b"])] ∧
    (extract_variable_selector_to_variable_mapping
        (fun s => if s = "{{#a#}}" then [{ var := "a", value_selector := ["n0", "a"] }]
                  else if s = "{{#b#}}" then [{ var := "b", value_selector := ["n0", "b"] }]
                  else []) "rag1"
        { query := "{{#a#}}", tag := [{ chi_pro := some "{{#b#}}" }] }).length = 2 :=
  ⟨(rag_extract_variable_mapping _ "rag1" "{{#a#}}" "{{#b#}}"
      { var := "a", value_selector := ["n0", "a"] }
      { var := "b", value_selector := ["n0", "b"] }
      (by decide) (by decide) (by decide) (by decide)).1,
   (rag_extract_variable_mapping _ "rag1" "{{#a#}}" "{{#b#}}"
      { var := "a", value_selector := ["n0", "a"] }
      { var := "b", value_selector := ["n0", "b"] }
      (by decide) (by decide) (by decide) (by decide)).2.1⟩

/-! ### Classification of parse failures (for C10)

pydantic raises `ValidationError` (a `ValueError`) on any field-type
violation inside a JSON object; the `TypeError` of `**`-unpacking arises
exactly for non-object bodies.  The next lemmas establish that the
object branch of `parseRagResponse` never produces a `typeError`. -/

/-- The computation never fails with a Python `TypeError`. -/
def NoTypeError {α : Type} (x : Except PyParseError α) : Prop :=
  ∀ m, x ≠ .error (.typeError m)

theorem noTypeError_bind {α β : Type} {x : Except PyParseError α}
    {f : α → Except PyParseError β} (hx : NoTypeError x)
    (hf : ∀ a, NoTypeError (f a)) : NoTypeError (x >>= f) := by
  intro m h
  cases x with
  | error e =>
    simp only [bind, Except.bind] at h
    have he : e = .typeError m := Except.error.inj h
    exact hx m (by rw [he])
  | ok a =>
    simp only [bind, Except.bind] at h
    exact hf a m h

theorem noTypeError_pure {α : Type} (a : α) :
    NoTypeError (pure a : Except PyParseError α) := by
  intro m h
  exact Except.noConfusion h

theorem noTypeError_mapM {α : Type} (f : Json → Except PyParseError α)
    (hf : ∀ j, NoTypeError (f j)) (xs : List Json) :
    NoTypeError (xs.mapM f) := by
  induction xs with
  | nil => exact noTypeError_pure []
  | cons x rest ih =>
    rw [List.mapM_cons]
    exact noTypeError_bind (hf x) fun a =>
      noTypeError_bind ih fun as => noTypeError_pure (a :: as)

theorem parseStr_noTypeError (fs : List (String × Json)) (n d : String) :
    NoTypeError (parseStr fs n d) := by
  intro m h
  unfold parseStr at h
  split at h <;> simp_all

theorem parseOptStr_noTypeError (fs : List (String × Json)) (n : String) :
    NoTypeError (parseOptStr fs n) := by
  intro m h
  unfold parseOptStr at h
  split at h <;> simp_all

theorem parseContextItem_noTypeError (j : Json) :
    NoTypeError (parseContextItem j) := by
  cases j with
  | obj fs =>
    unfold parseContextItem
    exact noTypeError_bind (parseOptStr_noTypeError fs "doc_name") fun a =>
      noTypeError_bind (parseOptStr_noTypeError fs "text") fun b =>
        noTypeError_bind (parseOptStr_noTypeError fs "img_url") fun c =>
          noTypeError_bind (parseOptStr_noTypeError fs "url") fun d => by
            intro m h; exact Except.noConfusion h
  | null => intro m h; exact PyParseError.noConfusion (Except.error.inj h)
  | bool b => intro m h; exact PyParseError.noConfusion (Except.error.inj h)
  | num n => intro m h; exact PyParseError.noConfusion (Except.error.inj h)
  | str s => intro m h; exact PyParseError.noConfusion (Except.error.inj h)
  | arr xs => intro m h; exact PyParseError.noConfusion (Except.error.inj h)

theorem parseReqStr_noTypeError (fs : List (String × Json)) (n : String) :
    NoTypeError (parseReqStr fs n) := by
  intro m h
  unfold parseReqStr at h
  split at h <;> simp_all

theorem parseResponseTag_noTypeError (j : Json) :
    NoTypeError (parseResponseTag j) := by
  cases j with
  | obj fs =>
    unfold parseResponseTag
    exact noTypeError_bind (parseReqStr_noTypeError fs "province_tag") fun a =>
      noTypeError_bind (parseReqStr_noTypeError fs "scene_tag") fun b =>
        noTypeError_bind (parseReqStr_noTypeError fs "specialty_tag") fun c =>
          noTypeError_pure _
  | null => intro m h; exact PyParseError.noConfusion (Except.error.inj h)
  | bool b => intro m h; exact PyParseError.noConfusion (Except.error.inj h)
  | num n => intro m h; exact PyParseError.noConfusion (Except.error.inj h)
  | str s => intro m h; exact PyParseError.noConfusion (Except.error.inj h)
  | arr xs => intro m h; exact PyParseError.noConfusion (Except.error.inj h)

theorem parseListField_noTypeError {α : Type} (fs : List (String × Json))
    (n : String) (parseItem : Json → Except PyParseError α)
    (hp : ∀ j, NoTypeError (parseItem j)) :
    NoTypeError (parseListField fs n parseItem) := by
  unfold parseListField
  split
  · exact noTypeError_pure _
  · exact noTypeError_mapM _ hp _
  · intro m h; simp_all

theorem noTypeError_map {α β : Type} {x : Except PyParseError α}
    (f : α → β) (hx : NoTypeError x) : NoTypeError (Except.map f x) := by
  intro m h
  cases x with
  | error e =>
    have he : e = .typeError m := Except.error.inj h
    exact hx m (by rw [he])
  | ok a => exact Except.noConfusion h

theorem parseRagResponseData_noTypeError (j : Json) :
    NoTypeError (parseRagResponseData j) := by
  cases j with
  | obj fs =>
    unfold parseRagResponseData
    exact noTypeError_bind
        (parseListField_noTypeError fs "context" _ parseContextItem_noTypeError)
        fun a => noTypeError_bind (parseStr_noTypeError fs "query" "") fun b =>
          noTypeError_bind
            (parseListField_noTypeError fs "tag" _ parseResponseTag_noTypeError)
            fun c => noTypeError_pure _
  | null => intro m h; exact PyParseError.noConfusion (Except.error.inj h)
  | bool b => intro m h; exact PyParseError.noConfusion (Except.error.inj h)
  | num n => intro m h; exact PyParseError.noConfusion (Except.error.inj h)
  | str s => intro m h; exact PyParseError.noConfusion (Except.error.inj h)
  | arr xs => intro m h; exact PyParseError.noConfusion (Except.error.inj h)

/-- A JSON-object body can fail validation only with pydantic's
`ValidationError` (a `ValueError`), never with the `**`-unpacking
`TypeError`. -/
theorem parseDataField_noTypeError (fs : List (String × Json)) :
    NoTypeError (parseDataField fs) := by
  unfold parseDataField
  split
  · exact noTypeError_pure _
  · exact noTypeError_pure _
  · exact noTypeError_map some (parseRagResponseData_noTypeError _)

theorem parseRagResponse_obj_noTypeError (fs : List (String × Json)) :
    NoTypeError (parseRagResponse (Json.obj fs)) := by
  unfold parseRagResponse
  exact noTypeError_bind (parseStr_noTypeError fs "code" "") fun a =>
    noTypeError_bind (parseDataField_noTypeError fs) fun b =>
      noTypeError_bind (parseStr_noTypeError fs "msg" "") fun c =>
        noTypeError_bind (parseStr_noTypeError fs "status" "") fun d =>
          noTypeError_pure _

/-- C10 (counterexample) — the claim's "parsing succeeds for every JSON
object body" is false: the object `{"code": 123}` (a JSON object whose
`code` field is a number) fails pydantic validation, and the node reports
the `"Failed to parse response"` `RagResponseError` even though the body
*is* a JSON object. -/
theorem rag_parse_leniency_counterexample :
    (∀ r, parseRagResponse (Json.obj [("code", Json.num 123)]) ≠ .ok r) ∧
    rag_run false false (.body (Json.obj [("code", Json.num 123)])) =
      { status := .failed,
        error := some "Failed to parse response: code: Input should be a valid string",
        error_type := some "RagResponseError" } := by
  constructor
  · intro r h
    have hp : parseRagResponse (Json.obj [("code", Json.num 123)]) =
        .error (.validationError "code: Input should be a valid string") := rfl
    rw [hp] at h
    exact Except.noConfusion h
  · rfl

/-- C10 (amended) — RAG response parsing is lenient only up to field types:
`{}` parses (all fields defaulted, `status = ""`); any body that parses
with `status ≠ "SUCCESS"` takes the structured-failure branch (a failed
result with outputs under continue-on-error/retry, a raised
`RagResponseError` otherwise); a JSON-object body that violates a field
type fails with the `"Failed to parse response"` `RagResponseError` (and an
object body can only fail that way); a non-object JSON body raises
`TypeError` at `**`-unpacking, surfacing as `UnexpectedError`. -/
theorem rag_response_parsing_branches (c r : Bool) (j : Json) :
    (parseRagResponse (Json.obj []) = .ok {} ∧ ({} : RagResponse).status = "") ∧
    (∀ resp, parseRagResponse j = .ok resp → resp.status ≠ "SUCCESS" →
      rag_run c r (.body j) =
        if c || r then
          { status := .failed,
            outputs := some { status := resp.status, msg := resp.msg,
                              data := resp.data, context := none },
            error := some resp.msg, error_type := some "RagResponseError" }
        else
          { status := .failed, error := some resp.msg,
            error_type := some "RagResponseError" }) ∧
    (∀ m, parseRagResponse j = .error (.validationError m) →
      rag_run c r (.body j) =
        { status := .failed, error := some s!"Failed to parse response: {m}",
          error_type := some "RagResponseError" }) ∧
    (∀ fs, j = Json.obj fs →
      ∀ m, parseRagResponse j ≠ .error (.typeError m)) ∧
    (∀ m, parseRagResponse j = .error (.typeError m) →
      rag_run c r (.body j) =
        { status := .failed, error := some s!"Unexpected error: {m}",
          error_type := some "UnexpectedError" }) := by
    refine ⟨⟨rfl, rfl⟩, ?_, ?_, ?_, ?_⟩
    · intro resp hp hst
      simp only [rag_run, send_rag_request, hp]
      rw [if_pos hst]
    · intro m hp
      simp only [rag_run, send_rag_request, hp]
    · intro fs hj m
      rw [hj]
      exact parseRagResponse_obj_noTypeError fs m
    · intro m hp
      simp only [rag_run, send_rag_request, hp]

/-- Witness for the amended C10: the concrete body `{}` parses with the
defaulted `status = ""` and, with neither continue-on-error nor retry, the
node reports the structured failure as a raised `RagResponseError`. -/
theorem rag_response_parsing_branches_witness :
    rag_run false false (.body (Json.obj [])) =
      { status := .failed, error := some "",
        error_type := some "RagResponseError" } :=
  ((rag_response_parsing_branches false false (Json.obj [])).2.1 {} rfl
      (by decide)).trans (by rfl)

/-! ## §4 Publish / square flow
(`controllers/console/app/publish.py`,
`services/publish_application_service.py`, `models/publish.py`)

Row ids generated by the database (`uuid_generate_v4()`) are modelled by the
store's `nextId` counter; external ids (accounts, apps, workflow versions,
tenants) are strings.

The enums of `models/publish.py`.  `ApplyAppType`/`PublishApplicationStatus`
/`NotificationMsgType` are `IntEnum`s, so their members are `int`s at
runtime and `str(member)` is the decimal string (Python ≥ 3.11). -/

def applyAppTypeWorkflow : Int := 1
def applyAppTypeAgent : Int := 2
def statusApplying : Int := 1
def statusCompleted : Int := 4
def statusRejected : Int := 5
def msgTypeApprovalTodo : Int := 2
def msgTypeApprovalResult : Int := 3

/-- A `workflows` row, restricted to the columns this flow reads/writes. -/
structure WorkflowRow where
  id : String
  tenant_id : String
  app_id : String
  type : String
  version : String
  marked_name : String
  marked_comment : String
  graph : String
  features : String
  publish_square : Bool
deriving Repr, DecidableEq

/-- An `app_model_configs` row, restricted to the columns copied by the
approval snapshot plus the `publish_square` flag it flips. -/
structure AppModelConfigRow where
  id : String
  app_id : String
  provider : Option String
  model_id : Option String
  configs : Option String
  opening_statement : Option String
  suggested_questions : Option String
  suggested_questions_after_answer : Option String
  speech_to_text : Option String
  text_to_speech : Option String
  more_like_this : Option String
  model : Option String
  user_input_form : Option String
  dataset_query_variable : Option String
  pre_prompt : Option String
  agent_mode : Option String
  sensitive_word_avoidance : Option String
  retriever_resource : Option String
  prompt_type : String
  chat_prompt_config : Option String
  completion_prompt_config : Option String
  dataset_configs : Option String
  external_data_tools : Option String
  file_upload : Option String
  marked_name : String
  marked_comment : String
  publish_square : Bool
deriving Repr, DecidableEq

/-- A `publish_application` row. -/
structure PublishApplicationRow where
  id : Nat
  applicant_id : String
  applicant_area : Option String
  tenant_id : Option String
  status : Int
  need_sys_approve : Option Bool
  region_admin_id : Option String
  sys_admin_id : Option String
  apply_app_id : String
  apply_app_version_id : String
  apply_app_type : Int
  created_by : Option String
  updated_by : Option String
deriving Repr, DecidableEq

/-- A `publish_application_history` row (append-only). -/
structure PublishApplicationHistoryRow where
  application_id : Nat
  tenant_id : Option String
  action : Option String
  operator_id : Option String
  operator_role : Option String
  from_status : Option String
  to_status : Option String
  reason : String
deriving Repr, DecidableEq

/-- A `system_notification` row. -/
structure SystemNotificationRow where
  id : Nat
  tenant_id : Option String
  title : Option String
  content : String
  msg_type : Int
  source_type : Option Int
  source_id : Option String
  created_by : Option String
  updated_by : Option String
  account_id : Option (List String)
  role : Option (List String)
  is_deal : Option Bool
  application_id : Option Nat
deriving Repr, DecidableEq

/-- A `publish_workflows` row (the square snapshot of a workflow);
`environment_variables`/`conversation_variables` keep their server defaults,
the constructor in the approval endpoint does not pass them. -/
structure PublishWorkflowRow where
  id : Nat
  tenant_id : String
  app_id : String
  type : String
  version : String
  marked_name : String
  marked_comment : String
  graph : String
  features : String
  created_by : Option String
  updated_by : Option String
  environment_variables : String := "{}"
  conversation_variables : String := "{}"
  icon_type : Option String
  icon : Option String
  icon_background : Option String
  enable : Bool
  workflow_id : String
deriving Repr, DecidableEq

/-- A `publish_app_model_configs` row (the square snapshot of an agent
configuration). -/
structure PublishAppModelConfigRow where
  id : Nat
  app_id : String
  provider : Option String
  model_id : Option String
  tenant_id : String
  configs : Option String
  created_by : Option String
  updated_by : Option String
  opening_statement : Option String
  suggested_questions : Option String
  suggested_questions_after_answer : Option String
  speech_to_text : Option String
  text_to_speech : Option String
  more_like_this : Option String
  model : Option String
  user_input_form : Option String
  dataset_query_variable : Option String
  pre_prompt : Option String
  agent_mode : Option String
  sensitive_word_avoidance : Option String
  retriever_resource : Option String
  prompt_type : String
  chat_prompt_config : Option String
  completion_prompt_config : Option String
  dataset_configs : Option String
  external_data_tools : Option String
  file_upload : Option String
  icon_type : Option String
  icon : Option String
  icon_background : Option String
  enable : Bool
  app_model_config_id : String
  marked_name : String
  marked_comment : String
deriving Repr, DecidableEq

/-- The relational store touched by the publish flow. -/
structure PublishStore where
  applications : List PublishApplicationRow
  histories : List PublishApplicationHistoryRow
  notifications : List SystemNotificationRow
  publishWorkflows : List PublishWorkflowRow
  publishAgentConfigs : List PublishAppModelConfigRow
  workflows : List WorkflowRow
  appConfigs : List AppModelConfigRow
  apps : List App
  nextId : Nat
deriving Repr

/-- Decimal digits of a natural number (fuel-structural so that concrete
values compute by `rfl`). -/
def natDigitsAux : Nat → Nat → List Char
  | 0, _ => []
  | fuel + 1, n =>
    if n < 10 then [Char.ofNat (48 + n)]
    else natDigitsAux fuel (n / 10) ++ [Char.ofNat (48 + n % 10)]

/-- Python `str(i)` on an `int` (what `str(PublishApplicationStatus.X)`
produces on Python ≥ 3.11 `IntEnum`s). -/
def decimalStr : Int → String
  | .ofNat n => ⟨natDigitsAux (n + 1) n⟩
  | .negSucc m => ⟨'-' :: natDigitsAux (m + 2) (m + 1)⟩

/-- Helper for `pgIntCast`: accumulate decimal digits. -/
def pgDigits : List Char → Nat → Option Nat
  | [], acc => some acc
  | c :: rest, acc =>
    if c.isDigit then pgDigits rest (10 * acc + (c.toNat - '0'.toNat))
    else none

/-- The database cast of a string parameter bound to an `Integer` column
(Postgres accepts a decimal literal, else the INSERT fails). -/
def pgIntCast (s : String) : Option Int :=
  match s.data with
  | [] => none
  | '-' :: rest =>
    if rest = [] then none else (pgDigits rest 0).map (fun n => -(n : Int))
  | cs => (pgDigits cs 0).map (fun n => (n : Int))

/-- Python `source_id or None`: an empty string is stored as `NULL`. -/
def pyOrNone : Option String → Option String
  | some "" => none
  | x => x

/-- `PublishApplicationService.add_history`: append one ledger row
(`reason or ""` turns a missing reason into the empty string). -/
def srv_add_history (s : PublishStore) (application_id : Nat)
    (tenant_id : Option String) (action : Option String)
    (operator_id operator_role from_status to_status : Option String)
    (reason : Option String) : PublishStore :=
  { s with histories := s.histories ++
      [{ application_id := application_id, tenant_id := tenant_id,
         action := action, operator_id := operator_id,
         operator_role := operator_role, from_status := from_status,
         to_status := to_status,
         reason := if pyTruthy reason then reason.getD "" else "" }] }

/-- `PublishApplicationService.create_notification`.  The Python expression
`created_by or account_id[0] if account_id else None` parses as
`(created_by or account_id[0]) if account_id else None`: without account
ids, `created_by`/`updated_by` are `NULL`; with them, a falsy `created_by`
falls back to the first account id. -/
def srv_create_notification (s : PublishStore)
    (account_id : Option (List String)) (role : Option (List String))
    (msg_type : Int) (tenant_id : Option String) (title : Option String)
    (content : Option String) (source_type : Option Int)
    (source_id : Option String) (created_by : Option String)
    (application_id : Option Nat) (is_deal : Option Bool) :
    SystemNotificationRow × PublishStore :=
  let createdBy : Option String :=
    match account_id with
    | some (a :: _) => some (if pyTruthy created_by then created_by.getD "" else a)
    | some [] => none
    | none => none
  let row : SystemNotificationRow :=
    { id := s.nextId, tenant_id := tenant_id, title := title,
      content := if pyTruthy content then content.getD "" else "",
      msg_type := msg_type, source_type := source_type,
      source_id := pyOrNone source_id, created_by := createdBy,
      updated_by := createdBy, account_id := account_id, role := role,
      is_deal := is_deal, application_id := application_id }
  (row, { s with notifications := s.notifications ++ [row],
                 nextId := s.nextId + 1 })

/-- `PublishApplicationService.get_by_id`. -/
def srv_get_by_id (s : PublishStore) (application_id : Nat) :
    Option PublishApplicationRow :=
  s.applications.find? (fun a => a.id == application_id)

/-- `PublishApplicationService.update`, at the only field the approval
endpoint passes (`status`); raises `ValueError` when the application does
not exist. -/
def srv_update_status (s : PublishStore) (application_id : Nat)
    (status : Int) :
    Except String (PublishApplicationRow × PublishStore) :=
  match srv_get_by_id s application_id with
  | none => .error "publish_application not found"
  | some app =>
    let app' := { app with status := status }
    .ok (app', { s with applications := s.applications.map (fun a =>
        if a.id == application_id then { a with status := status } else a) })

/-- `PublishApplicationService.create`: validates the status against
`PublishApplicationStatus`, inserts the row, and flushes to obtain the
generated id.  `apply_app_type` arrives as the *string* parsed by reqparse;
the `Integer` column stores its database cast (an unparseable string would
make the INSERT fail). -/
def srv_create (s : PublishStore) (account_id : String) (status : Int)
    (apply_app_id apply_app_version_id : String) (apply_app_type : String)
    (tenant_id : Option String) (need_sys_approve : Option Bool) :
    Except String (PublishApplicationRow × PublishStore) :=
  if ¬ (status = 1 ∨ status = 2 ∨ status = 3 ∨ status = 4 ∨ status = 5) then
    .error "invalid status"
  else
    match pgIntCast apply_app_type with
    | none => .error "invalid input syntax for type integer"
    | some t =>
      let row : PublishApplicationRow :=
        { id := s.nextId, applicant_id := account_id, applicant_area := none,
          tenant_id := tenant_id, status := status,
          need_sys_approve := need_sys_approve, region_admin_id := none,
          sys_admin_id := none, apply_app_id := apply_app_id,
          apply_app_version_id := apply_app_version_id, apply_app_type := t,
          created_by := some account_id, updated_by := some account_id }
      .ok (row, { s with applications := s.applications ++ [row],
                         nextId := s.nextId + 1 })

/-- Modelled from the spec: `WorkflowService.get_published_workflow_by_id`
(the workflow service is platform code outside this slice).  The spec says
the endpoints "validate that the referenced workflow … version still
exists": the lookup resolves the app's workflow row with that id. -/
def get_published_workflow_by_id (workflows : List WorkflowRow) (app : App)
    (workflow_id : String) : Option WorkflowRow :=
  workflows.find? (fun w => w.id == workflow_id && w.app_id == app.id)

/-- `AppModelConfigService.get_published_agent_by_id`
(`services/app_model_config_service.py`): the app's config row with that
id, else `None`. -/
def get_published_agent_by_id (configs : List AppModelConfigRow) (app : App)
    (agent_id : String) : Option AppModelConfigRow :=
  configs.find? (fun c => c.app_id == app.id && c.id == agent_id)

/-- Modelled from the spec: `_load_app_model`
(`controllers/console/app/wraps.py`, outside this slice): resolve the app
row by id, `None` when absent. -/
def load_app_model (apps : List App) (app_id : String) : Option App :=
  apps.find? (fun a => a.id == app_id)

/-- Exceptions escaping the publish endpoints (each becomes an HTTP error
response instead of the JSON envelope). -/
inductive PublishErr where
  | forbidden
  | attributeError (msg : String)
  | nameError (msg : String)
  | valueError (msg : String)
  | dbError (msg : String)
deriving Repr, DecidableEq

/-- The JSON envelopes of the publish endpoints: `{"result": "success"[,
"message": …]}` or `{"result": "fail", "message": …}` (both HTTP 200). -/
inductive PublishResp where
  | success (message : Option String)
  | fail (message : String)
deriving Repr, DecidableEq

/-- Request body of `Published2SquareApi.post` (submit); every value is the
string reqparse produced (`type=str`). -/
structure SubmitArgs where
  apply_app_type : String
  need_sys_approve : Option Bool
  selected_workflow_agent_id : String
  tenant_id : String
deriving Repr, DecidableEq

/-- `Published2SquareApi.post` (submit a publish request).  The version
checks compare `args["apply_app_type"]` — a *string* — against the
`IntEnum` members `ApplyAppType.WORKFLOW`/`AGENT` with `==`, which in
Python is always `False` for mixed `str`/`int` operands (see `pyEq`); the
soft-fail branches are translated nonetheless.  On the (always-taken)
create path the three writes share one session committed once. -/
def published2square_submit (s : PublishStore) (user_id : String)
    (is_editor : Bool) (app_model : App) (args : SubmitArgs) :
    Except PublishErr (PublishResp × PublishStore) :=
  if ¬ is_editor then .error .forbidden
  else
    let workflowFail :=
      if pyEq (.str args.apply_app_type) (.int applyAppTypeWorkflow) then
        (get_published_workflow_by_id s.workflows app_model
            args.selected_workflow_agent_id).isNone
      else false
    if workflowFail then .ok (.fail "选择的历史版本已经被删除了", s)
    else
      let agentFail :=
        if pyEq (.str args.apply_app_type) (.int applyAppTypeAgent) then
          (get_published_agent_by_id s.appConfigs app_model
              args.selected_workflow_agent_id).isNone
        else false
      if agentFail then .ok (.fail "选择的历史版本已经被删除了", s)
      else
        match srv_create s user_id statusApplying app_model.id
            args.selected_workflow_agent_id args.apply_app_type
            (some args.tenant_id) args.need_sys_approve with
        | .error e => .error (.dbError e)
        | .ok (application, s1) =>
          let s2 := srv_add_history s1 application.id (some args.tenant_id)
            (some "SUBMIT") (some user_id) (some "admin") none
            (some (decimalStr statusApplying)) none
          let (_, s3) := srv_create_notification s2 none
            (some ["admin", "owner"]) msgTypeApprovalTodo
            (some args.tenant_id) (some "发布到Square审批申请")
            (some s!"发布到Square审批申请，发布申请ID：{application.id}") none none
            none (some application.id) (some false)
          .ok (.success none, s3)

/-- Request body of `Published2SquareSysApproveApi.post`.  `id` is the
optional notification id (`none` models the falsy default `""`);
`application_id` the target application. -/
structure SysApproveArgs where
  id : Option Nat
  application_id : Nat
  approve : Bool
  reason : Option String
deriving Repr, DecidableEq

/-- Final step of the approval endpoint: `if args.get('id'):` — mark that
one notification handled (`is_deal = True`, `updated_by` when the caller id
is truthy), in every non-raising path. -/
def sys_approve_mark_notification (s : PublishStore) (user_id : String)
    (id? : Option Nat) : PublishStore :=
  match id? with
  | none => s
  | some nid =>
    match s.notifications.find? (fun n => n.id == nid) with
    | none => s
    | some _ =>
      { s with notifications := s.notifications.map (fun n =>
          if n.id == nid then
            { n with is_deal := some true,
                     updated_by := if user_id ≠ "" then some user_id
                                   else n.updated_by }
          else n) }

/-- `Published2SquareSysApproveApi.post`.  Returns the final store together
with the outcome, because the endpoint commits some writes before it can
raise: with a missing application it first inserts and commits the failure
notification, then unconditionally evaluates
`application.apply_app_id` on `None` — an `AttributeError` (HTTP 500), so
the soft-fail body built just before is never returned.  The reject path
reads the local variable `workflow`, which is only ever bound when
`apply_app_type == WORKFLOW`; otherwise it raises `NameError` before the
session commits, rolling the status update back. -/
def published2square_sys_approve (s : PublishStore) (user_id : String)
    (is_editor : Bool) (user_tenant_id : String) (args : SysApproveArgs) :
    PublishStore × Except PublishErr (Option PublishResp) :=
  if ¬ is_editor then (s, .error .forbidden)
  else
    match srv_get_by_id s args.application_id with
    | none =>
      -- failure notification inserted and committed …
      let (_, s1) := srv_create_notification s none (some ["admin", "owner"])
        msgTypeApprovalResult (some user_tenant_id) (some "发布到Square审批失败")
        (some s!"发布到Square审批失败，发布申请ID：{args.application_id}，原因：发布申请不存在")
        none none none none (some false)
      -- … then `_load_app_model(app_id=application.apply_app_id)` runs on
      -- `application = None` and raises before the fail body is returned
      (s1, .error (.attributeError "NoneType object has no attribute apply_app_id"))
    | some application =>
      let app_model? := load_app_model s.apps application.apply_app_id
      -- (the second `if application is None` block is unreachable here)
      -- workflow-version check; binds the local `workflow` when taken
      let wcheck : Except PublishErr (Option WorkflowRow ×
          Option PublishResp × PublishStore) :=
        if pyEq (.int application.apply_app_type) (.int applyAppTypeWorkflow) then
          match app_model? with
          | none => .error (.attributeError "NoneType object has no attribute id")
          | some app_model =>
            match get_published_workflow_by_id s.workflows app_model
                application.apply_app_version_id with
            | none =>
              let (_, s1) := srv_create_notification s
                (some [application.applicant_id]) none msgTypeApprovalResult
                (some user_tenant_id) (some "发布到Square审批失败")
                (some s!"发布到Square审批失败，发布申请ID：{args.application_id}，原因：选择的历史版本已经被删除了")
                none none none none (some false)
              .ok (none, some (.fail "选择的历史版本已经被删除了"), s1)
            | some w => .ok (some w, none, s)
        else .ok (none, none, s)
      match wcheck with
      | .error e => (s, .error e)
      | .ok (workflow?, msg1, sA) =>
        -- agent-version check
        let acheck : Except PublishErr (Option AppModelConfigRow ×
            Option PublishResp × PublishStore) :=
          if pyEq (.int application.apply_app_type) (.int applyAppTypeAgent) ∧
              msg1 = none then
            match app_model? with
            | none => .error (.attributeError "NoneType object has no attribute id")
            | some app_model =>
              match get_published_agent_by_id sA.appConfigs app_model
                  application.apply_app_version_id with
              | none =>
                let (_, s1) := srv_create_notification sA
                  (some [application.applicant_id]) none msgTypeApprovalResult
                  (some user_tenant_id) (some "发布到Square审批失败")
                  (some s!"发布到Square审批失败，发布申请ID：{args.application_id}，原因：选择的历史版本已经被删除了")
                  none none none none (some false)
                .ok (none, some (.fail "选择的历史版本已经被删除了"), s1)
              | some a => .ok (some a, none, sA)
          else .ok (none, msg1, sA)
        match acheck with
        | .error e => (sA, .error e)
        | .ok (agent?, msg2, sB) =>
          let approved : Except PublishErr (Option PublishResp × PublishStore) :=
            if args.approve ∧ msg2 = none then
              match srv_update_status sB args.application_id statusCompleted with
              | .error e => .error (.valueError e)
              | .ok (application', sC) =>
                let sD := srv_add_history sC args.application_id
                  application'.tenant_id (some "APPROVE") (some user_id)
                  (some "admin") none (some (decimalStr statusCompleted))
                  args.reason
                let (_, sE) := srv_create_notification sD
                  (some [application'.applicant_id]) none msgTypeApprovalResult
                  application'.tenant_id (some "发布到Square审批通过")
                  (some s!"发布到Square审批通过，发布申请ID：{args.application_id}")
                  none none none none (some false)
                if pyEq (.int application'.apply_app_type)
                    (.int applyAppTypeWorkflow) then
                  match app_model?, workflow? with
                  | some app_model, some w =>
                    let pw : PublishWorkflowRow :=
                      { id := sE.nextId, tenant_id := w.tenant_id,
                        app_id := app_model.id, type := w.type,
                        version := w.version,
                        marked_name := if w.marked_name ≠ "" then
                            app_model.name ++ "_" ++ w.marked_name
                          else app_model.name,
                        marked_comment := w.marked_comment, graph := w.graph,
                        features := w.features,
                        created_by := application'.created_by,
                        updated_by := application'.updated_by,
                        icon_type := app_model.icon_type,
                        icon := app_model.icon,
                        icon_background := app_model.icon_background,
                        enable := true,
                        workflow_id := application'.apply_app_version_id }
                    let sF := { sE with
                      publishWorkflows := sE.publishWorkflows ++ [pw],
                      workflows := sE.workflows.map (fun x =>
                        if x.id == pw.workflow_id then
                          { x with publish_square := true }
                        else x),
                      nextId := sE.nextId + 1 }
                    .ok (some (.success (some "操作成功")), sF)
                  | none, _ => .error (.attributeError "NoneType object has no attribute id")
                  | _, none => .error (.nameError "name workflow is not defined")
                else if pyEq (.int application'.apply_app_type)
                    (.int applyAppTypeAgent) then
                  match app_model?, agent? with
                  | some app_model, some agent =>
                    let pc : PublishAppModelConfigRow :=
                      { id := sE.nextId, app_id := app_model.id,
                        provider := agent.provider, model_id := agent.model_id,
                        tenant_id := app_model.tenant_id,
                        configs := agent.configs,
                        created_by := application'.created_by,
                        updated_by := application'.created_by,
                        opening_statement := agent.opening_statement,
                        suggested_questions := agent.suggested_questions,
                        suggested_questions_after_answer :=
                          agent.suggested_questions_after_answer,
                        speech_to_text := agent.speech_to_text,
                        text_to_speech := agent.text_to_speech,
                        more_like_this := agent.more_like_this,
                        model := agent.model,
                        user_input_form := agent.user_input_form,
                        dataset_query_variable := agent.dataset_query_variable,
                        pre_prompt := agent.pre_prompt,
                        agent_mode := agent.agent_mode,
                        sensitive_word_avoidance := agent.sensitive_word_avoidance,
                        retriever_resource := agent.retriever_resource,
                        prompt_type := agent.prompt_type,
                        chat_prompt_config := agent.chat_prompt_config,
                        completion_prompt_config := agent.completion_prompt_config,
                        dataset_configs := agent.dataset_configs,
                        external_data_tools := agent.external_data_tools,
                        file_upload := agent.file_upload,
                        icon_type := app_model.icon_type,
                        icon := app_model.icon,
                        icon_background := app_model.icon_background,
                        enable := true,
                        app_model_config_id := application'.apply_app_version_id,
                        marked_name := if agent.marked_name ≠ "" then
                            app_model.name ++ "_" ++ agent.marked_name
                          else app_model.name,
                        marked_comment := agent.marked_comment }
                    let sF := { sE with
                      publishAgentConfigs := sE.publishAgentConfigs ++ [pc],
                      appConfigs := sE.appConfigs.map (fun x =>
                        if x.id == pc.app_model_config_id then
                          { x with publish_square := true }
                        else x),
                      nextId := sE.nextId + 1 }
                    .ok (some (.success (some "操作成功")), sF)
                  | none, _ => .error (.attributeError "NoneType object has no attribute id")
                  | _, none => .error (.nameError "name agent is not defined")
                else .ok (some (.success (some "操作成功")), sE)
            else .ok (msg2, sB)
          match approved with
          | .error e => (sB, .error e)
          | .ok (msg3, sC) =>
            let rejected : Except PublishErr (Option PublishResp × PublishStore) :=
              if ¬ args.approve ∧ msg3 = none then
                -- `workflow.tenant_id` is read before the session commits:
                -- a missing binding rolls the whole block back
                match workflow? with
                | none => .error (.nameError "name workflow is not defined")
                | some w =>
                  match srv_update_status sC args.application_id
                      statusRejected with
                  | .error e => .error (.valueError e)
                  | .ok (application', sD) =>
                    let sE := srv_add_history sD args.application_id
                      (some w.tenant_id) (some "REJECT") (some user_id)
                      (some "admin") none (some (decimalStr statusRejected))
                      args.reason
                    let (_, sF) := srv_create_notification sE
                      (some [application.applicant_id]) none
                      msgTypeApprovalResult (some w.tenant_id)
                      (some "发布到Square审批拒绝")
                      (some s!"发布到Square审批拒绝，发布申请ID：{args.application_id}")
                      none none none none (some false)
                    .ok (some (.success (some "操作成功")), sF)
              else .ok (msg3, sC)
            match rejected with
            | .error e => (sC, .error e)
            | .ok (msg4, sD) =>
              let sFinal := sys_approve_mark_notification sD user_id args.id
              (sFinal, .ok msg4)

/-! ### Helper lemmas on list lookups and Python truthiness defaults -/

/-- `content or ""` on an always-present string is the string itself. -/
theorem pyTruthy_getD_some (x : String) :
    (if pyTruthy (some x) then (some x).getD "" else "") = x := by
  by_cases h : x = "" <;> simp [pyTruthy, h]

theorem pyTruthy_none_eq_false : pyTruthy none = false := rfl

theorem find?_append_right {α : Type} (l l' : List α) (p : α → Bool)
    (h : ∀ a ∈ l, ¬ p a) : (l ++ l').find? p = l'.find? p := by
  induction l with
  | nil => rfl
  | cons x xs ih =>
    rw [List.cons_append, List.find?_cons_of_neg _ (h x (by simp))]
    exact ih fun a ha => h a (by simp [ha])

theorem filter_append_left_nil {α : Type} (l l' : List α) (p : α → Bool)
    (h : ∀ a ∈ l, ¬ p a) : (l ++ l').filter p = l'.filter p := by
  rw [List.filter_append, List.filter_eq_nil_iff.mpr h, List.nil_append]

/-- C4 — sys-approve with a missing application: the endpoint inserts and
commits a failure notification addressed to roles admin/owner, but then —
instead of returning the soft-fail body it just built — it dereferences
`application.apply_app_id` on `None` and raises `AttributeError` (an HTTP
500).  No status change, history write, or snapshot materialisation
happens. -/
theorem sys_approve_missing_application (s : PublishStore) (uid ut : String)
    (args : SysApproveArgs)
    (hmiss : s.applications.find? (fun a => a.id == args.application_id) = none) :
    ∃ notif : SystemNotificationRow,
      published2square_sys_approve s uid true ut args =
        ({ s with notifications := s.notifications ++ [notif],
                  nextId := s.nextId + 1 },
         .error (.attributeError "NoneType object has no attribute apply_app_id")) ∧
      notif.role = some ["admin", "owner"] ∧
      notif.msg_type = msgTypeApprovalResult ∧
      notif.tenant_id = some ut ∧
      notif.is_deal = some false ∧
      (published2square_sys_approve s uid true ut args).1.applications =
        s.applications ∧
      (published2square_sys_approve s uid true ut args).1.histories =
        s.histories ∧
      (published2square_sys_approve s uid true ut args).1.publishWorkflows =
        s.publishWorkflows ∧
      (published2square_sys_approve s uid true ut args).1.publishAgentConfigs =
        s.publishAgentConfigs := by
  have hrun : published2square_sys_approve s uid true ut args =
      ({ s with
          notifications := s.notifications ++
            [{ id := s.nextId, tenant_id := some ut,
               title := some "发布到Square审批失败",
               content := s!"发布到Square审批失败，发布申请ID：{args.application_id}，原因：发布申请不存在",
               msg_type := msgTypeApprovalResult, source_type := none,
               source_id := none, created_by := none, updated_by := none,
               account_id := none, role := some ["admin", "owner"],
               is_deal := some false, application_id := none }],
          nextId := s.nextId + 1 },
       .error (.attributeError "NoneType object has no attribute apply_app_id")) := by
    simp [published2square_sys_approve, srv_get_by_id, hmiss,
      srv_create_notification, pyOrNone, pyTruthy_getD_some,
      pyTruthy_none_eq_false]
    intro h
    simp [pyTruthy] at h
    exact h.symm
  exact ⟨_, hrun, rfl, rfl, rfl, rfl, by rw [hrun], by rw [hrun],
    by rw [hrun], by rw [hrun]⟩

/-- Witness for C4 at the empty store. -/
theorem sys_approve_missing_application_witness :
    ∃ notif : SystemNotificationRow,
      published2square_sys_approve
          { applications := [], histories := [], notifications := [],
            publishWorkflows := [], publishAgentConfigs := [],
            workflows := [], appConfigs := [], apps := [], nextId := 0 }
          "u" true "t"
          { id := none, application_id := 7, approve := true, reason := none } =
        ({ applications := [], histories := [], notifications := [notif],
           publishWorkflows := [], publishAgentConfigs := [],
           workflows := [], appConfigs := [], apps := [], nextId := 1 },
         .error (.attributeError "NoneType object has no attribute apply_app_id")) ∧
      notif.role = some ["admin", "owner"] ∧
      notif.msg_type = msgTypeApprovalResult := by
  obtain ⟨notif, h1, h2, h3, -⟩ :=
    sys_approve_missing_application
      { applications := [], histories := [], notifications := [],
        publishWorkflows := [], publishAgentConfigs := [],
        workflows := [], appConfigs := [], apps := [], nextId := 0 }
      "u" "t"
      { id := none, application_id := 7, approve := true, reason := none }
      rfl
  exact ⟨notif, h1, h2, h3⟩

/-- C5 — submit with a dangling version id still creates everything: the
existence checks compare the reqparse *string* `apply_app_type` (always
`"1"`/`"2"` on the wire) with the `IntEnum` members, which is always
`False` in Python, so they are dead code; the endpoint answers
`{"result": "success"}` and inserts the `PublishApplication`, history and
notification rows even though neither the workflow version nor the agent
version exists. -/
theorem submit_missing_version_still_creates (s : PublishStore)
    (uid : String) (app : App) (wid t : String) (nb : Option Bool)
    (hnoworkflow : get_published_workflow_by_id s.workflows app wid = none)
    (hnoagent : get_published_agent_by_id s.appConfigs app wid = none) :
    ∃ pr : PublishResp × PublishStore,
      published2square_submit s uid true app
        { apply_app_type := "1", need_sys_approve := nb,
          selected_workflow_agent_id := wid, tenant_id := t } = .ok pr ∧
      pr.1 = .success none ∧
      pr.2.applications = s.applications ++
        [{ id := s.nextId, applicant_id := uid, applicant_area := none,
           tenant_id := some t, status := statusApplying,
           need_sys_approve := nb, region_admin_id := none,
           sys_admin_id := none, apply_app_id := app.id,
           apply_app_version_id := wid, apply_app_type := 1,
           created_by := some uid, updated_by := some uid }] ∧
      pr.2.histories = s.histories ++
        [{ application_id := s.nextId, tenant_id := some t,
           action := some "SUBMIT", operator_id := some uid,
           operator_role := some "admin", from_status := none,
           to_status := some "1", reason := "" }] ∧
      pr.2.notifications.length = s.notifications.length + 1 ∧
      (∃ n ∈ pr.2.notifications, n.msg_type = msgTypeApprovalTodo ∧
        n.role = some ["admin", "owner"] ∧
        n.application_id = some s.nextId) := by
  have hrun : published2square_submit s uid true app
      { apply_app_type := "1", need_sys_approve := nb,
        selected_workflow_agent_id := wid, tenant_id := t } =
      .ok (.success none,
        { s with
          applications := s.applications ++
            [{ id := s.nextId, applicant_id := uid, applicant_area := none,
               tenant_id := some t, status := statusApplying,
               need_sys_approve := nb, region_admin_id := none,
               sys_admin_id := none, apply_app_id := app.id,
               apply_app_version_id := wid, apply_app_type := 1,
               created_by := some uid, updated_by := some uid }],
          histories := s.histories ++
            [{ application_id := s.nextId, tenant_id := some t,
               action := some "SUBMIT", operator_id := some uid,
               operator_role := some "admin", from_status := none,
               to_status := some "1", reason := "" }],
          notifications := s.notifications ++
            [{ id := s.nextId + 1, tenant_id := some t,
               title := some "发布到Square审批申请",
               content := s!"发布到Square审批申请，发布申请ID：{s.nextId}",
               msg_type := msgTypeApprovalTodo, source_type := none,
               source_id := none, created_by := none, updated_by := none,
               account_id := none, role := some ["admin", "owner"],
               is_deal := some false,
               application_id := some s.nextId }],
          nextId := s.nextId + 2 }) := by
    simp [published2square_submit, srv_create, srv_add_history,
      srv_create_notification, pyEq, pyOrNone, pyTruthy_getD_some,
      pyTruthy_none_eq_false, statusApplying, applyAppTypeWorkflow,
      applyAppTypeAgent, msgTypeApprovalTodo,
      show pgIntCast "1" = some 1 from rfl,
      show decimalStr 1 = "1" from rfl]
    intro h
    simp [pyTruthy] at h
    exact h.symm
  refine ⟨_, hrun, rfl, rfl, rfl, by simp, ?_⟩
  exact ⟨{ id := s.nextId + 1, tenant_id := some t,
           title := some "发布到Square审批申请",
           content := s!"发布到Square审批申请，发布申请ID：{s.nextId}",
           msg_type := msgTypeApprovalTodo, source_type := none,
           source_id := none, created_by := none, updated_by := none,
           account_id := none, role := some ["admin", "owner"],
           is_deal := some false, application_id := some s.nextId },
         by simp, rfl, rfl, rfl⟩

/-- Witness for C5: on a store with no workflows and no configs at all, the
dangling id `"w404"` is accepted and the three rows are created. -/
theorem submit_missing_version_still_creates_witness :
    ∃ pr : PublishResp × PublishStore,
      published2square_submit
          { applications := [], histories := [], notifications := [],
            publishWorkflows := [], publishAgentConfigs := [],
            workflows := [], appConfigs := [],
            apps := [{ id := "a1", tenant_id := "t", name := "demo",
                       description := "", mode := "workflow",
                       icon_type := none, icon := none,
                       icon_background := none }], nextId := 0 }
          "u" true
          { id := "a1", tenant_id := "t", name := "demo", description := "",
            mode := "workflow", icon_type := none, icon := none,
            icon_background := none }
          { apply_app_type := "1", need_sys_approve := none,
            selected_workflow_agent_id := "w404", tenant_id := "t" } =
        .ok pr ∧
      pr.1 = .success none ∧
      pr.2.applications.length = 1 ∧
      pr.2.histories.length = 1 ∧
      pr.2.notifications.length = 1 := by
  obtain ⟨pr, h1, h2, h3, h4, h5, -⟩ :=
    submit_missing_version_still_creates
      { applications := [], histories := [], notifications := [],
        publishWorkflows := [], publishAgentConfigs := [],
        workflows := [], appConfigs := [],
        apps := [{ id := "a1", tenant_id := "t", name := "demo",
                   description := "", mode := "workflow", icon_type := none,
                   icon := none, icon_background := none }], nextId := 0 }
      "u"
      { id := "a1", tenant_id := "t", name := "demo", description := "",
        mode := "workflow", icon_type := none, icon := none,
        icon_background := none }
      "w404" "t" none rfl rfl
  exact ⟨pr, h1, h2, by simp [h3], by simp [h4], by simp [h5]⟩

/-- C1 — publish round-trip: submitting a publish request for an existing
workflow version and then approving it via sys-approve yields exactly one
new `PublishWorkflow` row whose `workflow_id` references that version, sets
the source workflow's `publish_square` flag, appends exactly two history
rows for the application (`SUBMIT`, then `APPROVE`), moves the application
to `COMPLETED`, and adds two notifications: the `APPROVAL_TODO` to roles
admin/owner at submit and the `APPROVAL_RESULT` to the applicant at
approval. -/
theorem publish_roundtrip (s : PublishStore) (uid uid2 ut : String)
    (app : App) (w : WorkflowRow) (wid t : String) (nb : Option Bool)
    (hids : ∀ a ∈ s.applications, a.id < s.nextId)
    (hhist : ∀ h ∈ s.histories, h.application_id < s.nextId)
    (happ : s.apps.find? (fun a => a.id == app.id) = some app)
    (hwf : s.workflows.find? (fun x => x.id == wid && x.app_id == app.id) =
      some w) :
    ∃ (s1 s2 : PublishStore) (pw : PublishWorkflowRow),
      published2square_submit s uid true app
        { apply_app_type := "1", need_sys_approve := nb,
          selected_workflow_agent_id := wid, tenant_id := t } =
        .ok (.success none, s1) ∧
      published2square_sys_approve s1 uid2 true ut
        { id := none, application_id := s.nextId, approve := true,
          reason := none } =
        (s2, .ok (some (.success (some "操作成功")))) ∧
      s2.publishWorkflows = s.publishWorkflows ++ [pw] ∧
      pw.workflow_id = wid ∧
      (∀ x ∈ s2.workflows, x.id = wid → x.publish_square = true) ∧
      (∃ x ∈ s2.workflows, x.id = wid) ∧
      (s2.histories.filter (fun h => h.application_id == s.nextId)).map
        (·.action) = [some "SUBMIT", some "APPROVE"] ∧
      (s2.applications.filter (fun a => a.id == s.nextId)).map (·.status) =
        [statusCompleted] ∧
      (∃ n ∈ s2.notifications, n.msg_type = msgTypeApprovalTodo ∧
        n.role = some ["admin", "owner"] ∧ n.application_id = some s.nextId) ∧
      (∃ n ∈ s2.notifications, n.msg_type = msgTypeApprovalResult ∧
        n.account_id = some [uid]) ∧
      s2.notifications.length = s.notifications.length + 2 := by
  have hwpred := List.find?_some hwf
  have hwid : w.id = wid := by
    simp only [Bool.and_eq_true, beq_iff_eq] at hwpred
    exact hwpred.1
  have hwmem : w ∈ s.workflows := List.mem_of_find?_eq_some hwf
  -- the state after submit
  have hrun1 : published2square_submit s uid true app
      { apply_app_type := "1", need_sys_approve := nb,
        selected_workflow_agent_id := wid, tenant_id := t } =
      .ok (.success none,
        { s with
          applications := s.applications ++
            [{ id := s.nextId, applicant_id := uid, applicant_area := none,
               tenant_id := some t, status := statusApplying,
               need_sys_approve := nb, region_admin_id := none,
               sys_admin_id := none, apply_app_id := app.id,
               apply_app_version_id := wid, apply_app_type := 1,
               created_by := some uid, updated_by := some uid }],
          histories := s.histories ++
            [{ application_id := s.nextId, tenant_id := some t,
               action := some "SUBMIT", operator_id := some uid,
               operator_role := some "admin", from_status := none,
               to_status := some "1", reason := "" }],
          notifications := s.notifications ++
            [{ id := s.nextId + 1, tenant_id := some t,
               title := some "发布到Square审批申请",
               content := s!"发布到Square审批申请，发布申请ID：{s.nextId}",
               msg_type := msgTypeApprovalTodo, source_type := none,
               source_id := none, created_by := none, updated_by := none,
               account_id := none, role := some ["admin", "owner"],
               is_deal := some false,
               application_id := some s.nextId }],
          nextId := s.nextId + 2 }) := by
    simp [published2square_submit, srv_create, srv_add_history,
      srv_create_notification, pyEq, pyOrNone, pyTruthy_getD_some,
      pyTruthy_none_eq_false, statusApplying, applyAppTypeWorkflow,
      applyAppTypeAgent, msgTypeApprovalTodo,
      show pgIntCast "1" = some 1 from rfl,
      show decimalStr 1 = "1" from rfl]
    intro h
    simp [pyTruthy] at h
    exact h.symm
  -- the new application row is found by id in the extended table
  have hnone : s.applications.find? (fun a => a.id == s.nextId) = none := by
    apply List.find?_eq_none.mpr
    intro a ha
    simpa using Nat.ne_of_lt (hids a ha)
  have hfind : (s.applications ++
      [{ id := s.nextId, applicant_id := uid, applicant_area := none,
         tenant_id := some t, status := statusApplying,
         need_sys_approve := nb, region_admin_id := none,
         sys_admin_id := none, apply_app_id := app.id,
         apply_app_version_id := wid, apply_app_type := 1,
         created_by := some uid,
         updated_by := some uid }] : List PublishApplicationRow).find?
        (fun a => a.id == s.nextId) =
      some { id := s.nextId, applicant_id := uid, applicant_area := none,
             tenant_id := some t, status := statusApplying,
             need_sys_approve := nb, region_admin_id := none,
             sys_admin_id := none, apply_app_id := app.id,
             apply_app_version_id := wid, apply_app_type := 1,
             created_by := some uid, updated_by := some uid } := by
    rw [find?_append_right _ _ _ (fun a ha => by
      simpa using Nat.ne_of_lt (hids a ha))]
    simp
  -- the state after approval
  have hrun2 : published2square_sys_approve
      { s with
        applications := s.applications ++
          [{ id := s.nextId, applicant_id := uid, applicant_area := none,
             tenant_id := some t, status := statusApplying,
             need_sys_approve := nb, region_admin_id := none,
             sys_admin_id := none, apply_app_id := app.id,
             apply_app_version_id := wid, apply_app_type := 1,
             created_by := some uid, updated_by := some uid }],
        histories := s.histories ++
          [{ application_id := s.nextId, tenant_id := some t,
             action := some "SUBMIT", operator_id := some uid,
             operator_role := some "admin", from_status := none,
             to_status := some "1", reason := "" }],
        notifications := s.notifications ++
          [{ id := s.nextId + 1, tenant_id := some t,
             title := some "发布到Square审批申请",
             content := s!"发布到Square审批申请，发布申请ID：{s.nextId}",
             msg_type := msgTypeApprovalTodo, source_type := none,
             source_id := none, created_by := none, updated_by := none,
             account_id := none, role := some ["admin", "owner"],
             is_deal := some false, application_id := some s.nextId }],
        nextId := s.nextId + 2 } uid2 true ut
      { id := none, application_id := s.nextId, approve := true,
        reason := none } =
      (({ s with
        applications := (s.applications ++
          ([{ id := s.nextId, applicant_id := uid, applicant_area := none,
              tenant_id := some t, status := statusApplying,
              need_sys_approve := nb, region_admin_id := none,
              sys_admin_id := none, apply_app_id := app.id,
              apply_app_version_id := wid, apply_app_type := 1,
              created_by := some uid,
              updated_by := some uid }] : List PublishApplicationRow)).map
          (fun a => if a.id == s.nextId then { a with status := statusCompleted }
                    else a),
        histories := (s.histories ++
          [{ application_id := s.nextId, tenant_id := some t,
             action := some "SUBMIT", operator_id := some uid,
             operator_role := some "admin", from_status := none,
             to_status := some "1", reason := "" }]) ++
          [{ application_id := s.nextId, tenant_id := some t,
             action := some "APPROVE", operator_id := some uid2,
             operator_role := some "admin", from_status := none,
             to_status := some "4", reason := "" }],
        notifications := (s.notifications ++
          [{ id := s.nextId + 1, tenant_id := some t,
             title := some "发布到Square审批申请",
             content := s!"发布到Square审批申请，发布申请ID：{s.nextId}",
             msg_type := msgTypeApprovalTodo, source_type := none,
             source_id := none, created_by := none, updated_by := none,
             account_id := none, role := some ["admin", "owner"],
             is_deal := some false, application_id := some s.nextId }]) ++
          [{ id := s.nextId + 2, tenant_id := some t,
             title := some "发布到Square审批通过",
             content := s!"发布到Square审批通过，发布申请ID：{s.nextId}",
             msg_type := msgTypeApprovalResult, source_type := none,
             source_id := none, created_by := some uid,
             updated_by := some uid, account_id := some [uid], role := none,
             is_deal := some false, application_id := none }],
        publishWorkflows := s.publishWorkflows ++
          [{ id := s.nextId + 3, tenant_id := w.tenant_id, app_id := app.id,
             type := w.type, version := w.version,
             marked_name := if w.marked_name ≠ "" then
                 app.name ++ "_" ++ w.marked_name
               else app.name,
             marked_comment := w.marked_comment, graph := w.graph,
             features := w.features, created_by := some uid,
             updated_by := some uid, environment_variables := "{}",
             conversation_variables := "{}", icon_type := app.icon_type,
             icon := app.icon, icon_background := app.icon_background,
             enable := true, workflow_id := wid }],
        workflows := s.workflows.map (fun x =>
          if x.id == wid then { x with publish_square := true } else x),
        nextId := s.nextId + 4 } : PublishStore),
       .ok (some (.success (some "操作成功")))) := by
    simp [published2square_sys_approve, srv_get_by_id, hfind, load_app_model,
      happ, get_published_workflow_by_id, hwf, srv_update_status,
      srv_add_history, srv_create_notification, sys_approve_mark_notification,
      pyEq, pyOrNone, pyTruthy_getD_some, pyTruthy_none_eq_false,
      applyAppTypeWorkflow, applyAppTypeAgent, statusCompleted,
      msgTypeApprovalResult, show decimalStr 4 = "4" from rfl]
    intro h
    simp [pyTruthy] at h
    exact h.symm
  refine ⟨_, _, _, hrun1, hrun2, rfl, rfl, ?_, ?_, ?_, ?_, ?_, ?_, ?_⟩
  · intro x hx hxid
    obtain ⟨y, hy, rfl⟩ := List.mem_map.mp hx
    by_cases hyw : (y.id == wid) = true
    · simp [hyw]
    · exfalso
      rw [if_neg (by simpa using hyw)] at hxid
      exact (by simpa using hyw : y.id ≠ wid) hxid
  · refine ⟨{ w with publish_square := true }, ?_, hwid⟩
    exact List.mem_map.mpr ⟨w, hwmem, by simp [hwid]⟩
  · rw [List.filter_append, List.filter_append,
      List.filter_eq_nil_iff.mpr (fun h hh => by
        simpa using Nat.ne_of_lt (hhist h hh))]
    simp
  · rw [List.map_append, List.filter_append]
    have h1 : ((s.applications.map (fun a =>
        if a.id == s.nextId then { a with status := statusCompleted }
        else a)).filter (fun a => a.id == s.nextId)) = [] := by
      apply List.filter_eq_nil_iff.mpr
      intro a ha
      obtain ⟨y, hy, rfl⟩ := List.mem_map.mp ha
      have hne : y.id ≠ s.nextId := Nat.ne_of_lt (hids y hy)
      rw [if_neg (by simpa using hne)]
      simpa using hne
    rw [h1]
    simp
  · refine ⟨{ id := s.nextId + 1,
              tenant_id := some t,
              title := some "发布到Square审批申请",
              content := s!"发布到Square审批申请，发布申请ID：{s.nextId}",
              msg_type := msgTypeApprovalTodo,
              source_type := none,
              source_id := none,
              created_by := none,
              updated_by := none,
              account_id := none,
              role := some ["admin", "owner"],
              is_deal := some false,
              application_id := some s.nextId }, by simp, rfl, rfl, rfl⟩
  · refine ⟨{ id := s.nextId + 2,
              tenant_id := some t,
              title := some "发布到Square审批通过",
              content := s!"发布到Square审批通过，发布申请ID：{s.nextId}",
              msg_type := msgTypeApprovalResult,
              source_type := none,
              source_id := none,
              created_by := some uid,
              updated_by := some uid,
              account_id := some [uid],
              role := none,
              is_deal := some false,
              application_id := none }, by simp, rfl, rfl⟩
  · simp

/-- Witness for C1 on a one-app, one-workflow store. -/
theorem publish_roundtrip_witness :
    ∃ (s1 s2 : PublishStore) (pw : PublishWorkflowRow),
      published2square_submit
        { applications := [], histories := [], notifications := [],
          publishWorkflows := [], publishAgentConfigs := [],
          workflows := [{ id := "w1", tenant_id := "t1", app_id := "a1",
                          type := "workflow", version := "v1",
                          marked_name := "", marked_comment := "",
                          graph := "{}", features := "{}",
                          publish_square := false }],
          appConfigs := [],
          apps := [{ id := "a1", tenant_id := "t1", name := "demo",
                     description := "", mode := "workflow",
                     icon_type := none, icon := none,
                     icon_background := none }], nextId := 0 }
        "u1" true
        { id := "a1", tenant_id := "t1", name := "demo", description := "",
          mode := "workflow", icon_type := none, icon := none,
          icon_background := none }
        { apply_app_type := "1", need_sys_approve := none,
          selected_workflow_agent_id := "w1", tenant_id := "tt" } =
        .ok (.success none, s1) ∧
      published2square_sys_approve s1 "u2" true "t1"
        { id := none, application_id := 0, approve := true,
          reason := none } =
        (s2, .ok (some (.success (some "操作成功")))) ∧
      s2.publishWorkflows = [] ++ [pw] ∧
      pw.workflow_id = "w1" ∧
      (∀ x ∈ s2.workflows, x.id = "w1" → x.publish_square = true) ∧
      (∃ x ∈ s2.workflows, x.id = "w1") ∧
      (s2.histories.filter (fun h => h.application_id == 0)).map (·.action) =
        [some "SUBMIT", some "APPROVE"] ∧
      (s2.applications.filter (fun a => a.id == 0)).map (·.status) =
        [statusCompleted] ∧
      (∃ n ∈ s2.notifications, n.msg_type = msgTypeApprovalTodo ∧
        n.role = some ["admin", "owner"] ∧ n.application_id = some 0) ∧
      (∃ n ∈ s2.notifications, n.msg_type = msgTypeApprovalResult ∧
        n.account_id = some ["u1"]) ∧
      s2.notifications.length = ([] : List SystemNotificationRow).length + 2 :=
  publish_roundtrip
    { applications := [], histories := [], notifications := [],
      publishWorkflows := [], publishAgentConfigs := [],
      workflows := [{ id := "w1", tenant_id := "t1", app_id := "a1",
                      type := "workflow", version := "v1", marked_name := "",
                      marked_comment := "", graph := "{}", features := "{}",
                      publish_square := false }],
      appConfigs := [],
      apps := [{ id := "a1", tenant_id := "t1", name := "demo",
                 description := "", mode := "workflow", icon_type := none,
                 icon := none, icon_background := none }], nextId := 0 }
    "u1" "u2" "t1"
    { id := "a1", tenant_id := "t1", name := "demo", description := "",
      mode := "workflow", icon_type := none, icon := none,
      icon_background := none }
    { id := "w1", tenant_id := "t1", app_id := "a1", type := "workflow",
      version := "v1", marked_name := "", marked_comment := "",
      graph := "{}", features := "{}", publish_square := false }
    "w1" "tt" none (by simp) (by simp) rfl rfl

/-!
### §5  Menu service

Shallow embedding of `services/menu_service.py` (class `MenuService`) over the
`Menu` / `RoleMenu` models of `models/account.py`.  Menu ids are uuid strings
in the source; we model them as `Nat` with the store's `nextId` counter playing
the role of the uuid generator.  A uuid string is never empty, so Python
truthiness of an id value coincides with the value being non-`None`; dict
fields that may be absent are modelled as `Option` (outer level = key present),
and `Option.join` models `dict.get(key)` which collapses absent and `None`.
-/

/-- A row of the `menus` table (`models/account.py`, class `Menu`). -/
structure Menu where
  id : Nat
  menu_key : String
  menu_name : String
  menu_type : String
  parent_id : Option Nat
  icon : Option String
  path : Option String
  sort_order : Nat
  is_active : Bool
  description : Option String
  deriving Repr, DecidableEq

/-- A row of the `role_menus` association table (`models/account.py`, class `RoleMenu`). -/
structure RoleMenuRow where
  role_id : Nat
  menu_id : Nat
  deriving Repr, DecidableEq

/-- The slice of the database the menu service touches. -/
structure MenuStore where
  menus : List Menu
  roleMenus : List RoleMenuRow
  nextId : Nat
  deriving Repr, DecidableEq

/-- The `menu_data` dict passed to `create_menu` / `update_menu`: each field is
`some v` when the key is present with value `v`, `none` when absent.  Nullable
columns get a second `Option` layer for a present-but-`None` value. -/
structure MenuData where
  menu_key : Option String := none
  menu_name : Option String := none
  menu_type : Option String := none
  parent_id : Option (Option Nat) := none
  icon : Option (Option String) := none
  path : Option (Option String) := none
  sort_order : Option Nat := none
  is_active : Option Bool := none
  description : Option (Option String) := none
  deriving Repr, DecidableEq

/-- Errors raised by the menu service (`Exception` / `ValueError` / `KeyError`);
`recursionLimit` models our fuel for the cascade recursion of `delete_menu`
(which, on the acyclic stores the theorems are about, is never hit). -/
inductive MenuErr where
  | keyExists (msg : String)
  | valueError (msg : String)
  | keyError (key : String)
  | recursionLimit
  deriving Repr, DecidableEq

/-- One step up the parent chain: `db.session.get(Menu, i)` (lookup by primary
key) followed by reading `parent_id`; `none` when the menu is missing or is a
root. -/
def stepM (menus : List Menu) (i : Nat) : Option Nat :=
  (menus.find? (fun m => m.id == i)).bind (fun m => m.parent_id)

/-- Iterate an abstract parent-step function `k` times (`none` once the walk
has fallen off the graph or reached a root). -/
def iterS (f : Nat → Option Nat) : Nat → Option Nat → Option Nat
  | 0, o => o
  | k + 1, o => iterS f k (o.bind f)

/-- Every walk along `f` eventually terminates: the functional graph of `f`
has no cycle. -/
def Terminates (f : Nat → Option Nat) : Prop :=
  ∀ i : Nat, ∃ k : Nat, iterS f k (some i) = none

/-- Acyclicity of the parent-id graph over the `menus` table. -/
def MenuAcyclic (menus : List Menu) : Prop := Terminates (stepM menus)

/-- The `while current_id and current_id not in visited` loop of
`MenuService._would_create_cycle`, with explicit fuel.  Each full iteration
adds a fresh id to `visited` and every visited id except possibly the last one
is the id of a row (its `parent_id` was read), so `menus.length + 2` fuel is
enough for the source loop on any store. -/
def cycleWalk (menus : List Menu) (menu_id : Nat) : Nat → Option Nat → List Nat → Bool
  | 0, _, _ => false
  | fuel + 1, current, visited =>
    match current with
    | none => false
    | some c =>
      if c ∈ visited then false
      else if c == menu_id then true
      else cycleWalk menus menu_id fuel (stepM menus c) (c :: visited)

/-- `MenuService._would_create_cycle(menu_id, parent_id)`. -/
def wouldCreateCycle (menus : List Menu) (menu_id parent_id : Nat) : Bool :=
  cycleWalk menus menu_id (menus.length + 2) (some parent_id) []

/-- The row `create_menu` builds and inserts (id freshly generated). -/
def newMenuRow (menu_data : MenuData) (mkey mname : String) (i : Nat) : Menu :=
  { id := i
    menu_key := mkey
    menu_name := mname
    parent_id := menu_data.parent_id.join
    menu_type := menu_data.menu_type.getD "menu"
    description := menu_data.description.join
    icon := menu_data.icon.join
    path := menu_data.path.join
    sort_order := menu_data.sort_order.getD 0
    is_active := menu_data.is_active.getD true }

/-- The `if menu_data.get('parent_id'): ... if not parent` check of
`create_menu`: a truthy parent id was supplied but no such menu exists. -/
def menuParentMissing (menu_data : MenuData) (menus : List Menu) : Bool :=
  match menu_data.parent_id.join with
  | some pid => !(menus.find? (fun m => m.id == pid)).isSome
  | none => false

/-- `MenuService.create_menu`: duplicate-key check, parent-existence check when
a (truthy) parent id is supplied, then insert and commit.  Indexing a missing
required dict key raises `KeyError`. -/
def create_menu (menu_data : MenuData) (s : MenuStore) : MenuStore × Except MenuErr Nat :=
  match menu_data.menu_key with
  | none => (s, .error (.keyError "menu_key"))
  | some mkey =>
    if (s.menus.find? (fun m => m.menu_key == mkey)).isSome then
      (s, .error (.keyExists ("Menu key " ++ mkey ++ " 已存在.")))
    else if menuParentMissing menu_data s.menus then
      (s, .error (.valueError "父菜单不存在"))
    else
      match menu_data.menu_name with
      | none => (s, .error (.keyError "menu_name"))
      | some mname =>
        ({ s with
            menus := s.menus ++ [newMenuRow menu_data mkey mname s.nextId]
            nextId := s.nextId + 1 },
         .ok s.nextId)

/-- The `setattr` loop at the end of `update_menu`: overwrite exactly the
fields whose key is present in `menu_data` (the id is never touched). -/
def applyMenuData (menu_data : MenuData) (m : Menu) : Menu :=
  { m with
    menu_key := menu_data.menu_key.getD m.menu_key
    menu_name := menu_data.menu_name.getD m.menu_name
    menu_type := menu_data.menu_type.getD m.menu_type
    parent_id := menu_data.parent_id.getD m.parent_id
    icon := menu_data.icon.getD m.icon
    path := menu_data.path.getD m.path
    sort_order := menu_data.sort_order.getD m.sort_order
    is_active := menu_data.is_active.getD m.is_active
    description := menu_data.description.getD m.description }

/-- The key-conflict check of `update_menu`: a new `menu_key` is supplied that
differs from the current one and is already used by another menu. -/
def menuKeyConflict (menu_data : MenuData) (menu : Menu) (menu_id : Nat)
    (menus : List Menu) : Bool :=
  match menu_data.menu_key with
  | some k =>
    !(k == menu.menu_key) &&
      (menus.find? (fun m => m.menu_key == k && !(m.id == menu_id))).isSome
  | none => false

/-- The parent-validation block of `update_menu`, run only for a truthy new
parent id: self-parent check, parent-existence check, then the
`_would_create_cycle` walk; `none` when all checks pass. -/
def menuParentErr (menu_data : MenuData) (menu_id : Nat) (menus : List Menu) :
    Option MenuErr :=
  match menu_data.parent_id.join with
  | some pid =>
    if pid == menu_id then some (.valueError "菜单不能设置自己为父菜单")
    else if !(menus.find? (fun m => m.id == pid)).isSome then
      some (.valueError "父菜单不存在")
    else if wouldCreateCycle menus menu_id pid then
      some (.valueError "设置父菜单会形成循环引用")
    else none
  | none => none

/-- `MenuService.update_menu`: existence check, key-conflict check, then (for a
truthy new parent) the self-parent check, parent-existence check and the
`_would_create_cycle` walk, all before any field is written. -/
def update_menu (menu_id : Nat) (menu_data : MenuData) (s : MenuStore) :
    MenuStore × Except MenuErr Unit :=
  match s.menus.find? (fun m => m.id == menu_id) with
  | none => (s, .error (.valueError "菜单不存在"))
  | some menu =>
    if menuKeyConflict menu_data menu menu_id s.menus then
      (s, .error (.valueError ("菜单key " ++ menu_data.menu_key.getD "" ++ " 已存在")))
    else
      match menuParentErr menu_data menu_id s.menus with
      | some e => (s, .error e)
      | none =>
        ({ s with menus :=
            s.menus.map (fun m => if m.id == menu_id then applyMenuData menu_data m else m) },
         .ok ())

/-- The `for child in children` loop of `delete_menu`: cascade-delete each
child with the given recursive deleter, threading the store and summing the
deleted counts; a raised error aborts the loop. -/
def deleteChildren (f : Nat → Bool → MenuStore → MenuStore × Except MenuErr (Nat × String)) :
    List Menu → Nat → MenuStore → MenuStore × Except MenuErr Nat
  | [], acc, s => (s, .ok acc)
  | c :: rest, acc, s =>
    match f c.id true s with
    | (s', .ok r) => deleteChildren f rest (acc + r.1) s'
    | (s', .error e) => (s', .error e)

/-- `MenuService.delete_menu`: existence check, children check (error without
`cascade`), recursive cascade over the children computed up front (past the
guard a nonempty children list implies `cascade`, so the recursion is run on
`children` directly), then removal of the `RoleMenu` associations and of the
row itself.  Returns `(deleted_count, menu_name)`. -/
def delete_menu : Nat → Nat → Bool → MenuStore → MenuStore × Except MenuErr (Nat × String)
  | 0, _, _, s => (s, .error .recursionLimit)
  | fuel + 1, menu_id, cascade, s =>
    match s.menus.find? (fun m => m.id == menu_id) with
    | none => (s, .error (.valueError "菜单不存在"))
    | some menu =>
      if !(s.menus.filter (fun m => m.parent_id == some menu_id)).isEmpty && !cascade then
        (s, .error (.valueError
          ("菜单下有 " ++
            decimalStr (s.menus.filter (fun m => m.parent_id == some menu_id)).length ++
            " 个子菜单，请先删除子菜单或使用级联删除")))
      else
        match deleteChildren (delete_menu fuel)
            (s.menus.filter (fun m => m.parent_id == some menu_id)) 0 s with
        | (s', .error e) => (s', .error e)
        | (s', .ok n) =>
          ({ s' with
              roleMenus := s'.roleMenus.filter (fun rm => !(rm.menu_id == menu_id))
              menus := s'.menus.filter (fun m => !(m.id == menu_id)) },
           .ok (n + 1, menu.menu_name))

/-- Well-formedness of a menu store: ids were generated by the counter, and
parent values reference generated ids (the service only ever stores an
existing menu's id, or `none`, into `parent_id`). -/
def MenuWF (s : MenuStore) : Prop :=
  (∀ m ∈ s.menus, m.id < s.nextId) ∧
  (∀ m ∈ s.menus, ∀ p, m.parent_id = some p → p < s.nextId)

lemma iterS_none (f : Nat → Option Nat) : ∀ k : Nat, iterS f k none = none
  | 0 => rfl
  | k + 1 => iterS_none f k

lemma iterS_add (f : Nat → Option Nat) :
    ∀ (a b : Nat) (o : Option Nat), iterS f (a + b) o = iterS f b (iterS f a o)
  | 0, b, o => by simp [iterS]
  | a + 1, b, o => by
    have h1 : a + 1 + b = (a + b) + 1 := by omega
    rw [h1]
    show iterS f (a + b) (o.bind f) = iterS f b (iterS f a (o.bind f))
    exact iterS_add f a b (o.bind f)

lemma iterS_succ_right (f : Nat → Option Nat) (k : Nat) (o : Option Nat) :
    iterS f (k + 1) o = (iterS f k o).bind f := by
  have h := iterS_add f k 1 o
  rw [h]
  rfl

/-- Removing steps (turning some of `f`'s edges into `none`) preserves
termination of every walk. -/
lemma iterS_sub_none {f g : Nat → Option Nat} (hsub : ∀ j, g j = f j ∨ g j = none) :
    ∀ (k : Nat) (o : Option Nat), iterS f k o = none → iterS g k o = none := by
  intro k
  induction k with
  | zero => intro o h; exact h
  | succ k ih =>
    intro o h
    cases o with
    | none => exact iterS_none g (k + 1)
    | some j =>
      have h' : iterS f k (f j) = none := h
      rcases hsub j with hgf | hgn
      · show iterS g k (g j) = none
        rw [hgf]
        exact ih _ h'
      · show iterS g k (g j) = none
        rw [hgn]
        exact iterS_none g k

lemma terminates_sub {f g : Nat → Option Nat}
    (hsub : ∀ j, g j = f j ∨ g j = none) (hf : Terminates f) : Terminates g :=
  fun i => (hf i).imp (fun k hk => iterS_sub_none hsub k _ hk)

/-- In a terminating (acyclic) graph no walk returns to its start. -/
lemma iterS_no_period {f : Nat → Option Nat} (hf : Terminates f) (v d : Nat)
    (hd : 0 < d) (hp : iterS f d (some v) = some v) : False := by
  have hmul : ∀ m : Nat, iterS f (m * d) (some v) = some v := by
    intro m
    induction m with
    | zero => simp [iterS]
    | succ m ih =>
      have he : (m + 1) * d = m * d + d := by ring
      rw [he, iterS_add, ih, hp]
  obtain ⟨k, hk⟩ := hf v
  have hge : k ≤ k * d := by nlinarith
  obtain ⟨r, hr⟩ := Nat.exists_eq_add_of_le hge
  have hnone : iterS f (k * d) (some v) = none := by
    rw [hr, iterS_add, hk, iterS_none]
  rw [hmul k] at hnone
  exact Option.noConfusion hnone

/-- If all parent values stored in the table are `< N`, a walk started below
`N` stays below `N`. -/
lemma iterS_lt_bound (menus : List Menu) (N : Nat)
    (hpar : ∀ m ∈ menus, ∀ q, m.parent_id = some q → q < N) :
    ∀ (k p x : Nat), p < N → iterS (stepM menus) k (some p) = some x → x < N := by
  intro k
  induction k with
  | zero =>
    intro p x hp h
    have hpx := Option.some.inj h
    omega
  | succ k ih =>
    intro p x hp h
    have h' : iterS (stepM menus) k (stepM menus p) = some x := h
    cases hstep : stepM menus p with
    | none =>
      rw [hstep, iterS_none] at h'
      exact absurd h' (by simp)
    | some q =>
      have hq : q < N := by
        unfold stepM at hstep
        cases hfind : menus.find? (fun m => m.id == p) with
        | none => rw [hfind] at hstep; simp at hstep
        | some m =>
          rw [hfind] at hstep
          exact hpar m (List.mem_of_find?_eq_some hfind) q (by simpa using hstep)
      rw [hstep] at h'
      exact ih q x hq h'

/-- Rerouting the single vertex `X` to a target from which `X` is unreachable
preserves termination of every walk. -/
lemma terminates_reroute {f g : Nat → Option Nat} (X : Nat)
    (hag : ∀ j, j ≠ X → g j = f j)
    (hnr : ∀ k, iterS f k (g X) ≠ some X)
    (hf : Terminates f) : Terminates g := by
  classical
  have sub1 : ∀ (k : Nat) (o : Option Nat), (∀ t, t < k → iterS f t o ≠ some X) →
      iterS g k o = iterS f k o := by
    intro k
    induction k with
    | zero => intro o _; rfl
    | succ k ih =>
      intro o ho
      cases o with
      | none => rw [iterS_none, iterS_none]
      | some j =>
        have hj : j ≠ X := by
          intro hEq
          exact ho 0 (Nat.succ_pos k) (by rw [hEq]; rfl)
        show iterS g k (g j) = iterS f k (f j)
        rw [hag j hj]
        exact ih (f j) (fun t ht heq => ho (t + 1) (by omega) heq)
  have hXterm : ∃ k, iterS g k (g X) = none := by
    cases hgx : g X with
    | none => exact ⟨0, rfl⟩
    | some q =>
      obtain ⟨k, hk⟩ := hf q
      refine ⟨k, ?_⟩
      rw [sub1 k (some q) (fun t _ heq => hnr t (by rw [hgx]; exact heq))]
      exact hk
  intro i
  obtain ⟨k₀, hk₀⟩ := hf i
  by_cases hre : ∃ t, iterS f t (some i) = some X
  · obtain ⟨kp, hkp⟩ := hXterm
    refine ⟨Nat.find hre + (1 + kp), ?_⟩
    have hfind := Nat.find_spec hre
    have hming : ∀ t, t < Nat.find hre → iterS f t (some i) ≠ some X :=
      fun t ht => Nat.find_min hre ht
    rw [iterS_add, sub1 (Nat.find hre) (some i) hming, hfind,
      show 1 + kp = kp + 1 from by omega]
    show iterS g kp (g X) = none
    exact hkp
  · push_neg at hre
    exact ⟨k₀, by rw [sub1 k₀ (some i) (fun t _ => hre t), hk₀]⟩

lemma find?_append_left {α : Type} {l₁ : List α} (l₂ : List α) (p : α → Bool) {a : α}
    (h : l₁.find? p = some a) : (l₁ ++ l₂).find? p = some a := by
  induction l₁ with
  | nil => exact absurd h (by simp)
  | cons x xs ih =>
    by_cases hx : p x = true
    · rw [List.find?_cons_of_pos _ hx] at h
      rw [List.cons_append, List.find?_cons_of_pos _ hx]
      exact h
    · rw [List.find?_cons_of_neg _ hx] at h
      rw [List.cons_append, List.find?_cons_of_neg _ hx]
      exact ih h

lemma find?_filter_of_imp {α : Type} (p q : α → Bool) (h : ∀ a, q a = true → p a = true) :
    ∀ l : List α, (l.filter p).find? q = l.find? q := by
  intro l
  induction l with
  | nil => rfl
  | cons a l ih =>
    by_cases hp : p a = true
    · rw [List.filter_cons_of_pos hp]
      by_cases hq : q a = true
      · rw [List.find?_cons_of_pos _ hq, List.find?_cons_of_pos _ hq]
      · rw [List.find?_cons_of_neg _ hq, List.find?_cons_of_neg _ hq]
        exact ih
    · have hq : ¬ q a = true := fun hqa => hp (h a hqa)
      rw [List.filter_cons_of_neg (by simpa using hp), List.find?_cons_of_neg _ hq]
      exact ih

lemma find?_map_id (f : Menu → Menu) (hf : ∀ m, (f m).id = m.id) (j : Nat) :
    ∀ menus : List Menu,
      (menus.map f).find? (fun m => m.id == j) = (menus.find? (fun m => m.id == j)).map f := by
  intro menus
  induction menus with
  | nil => rfl
  | cons m rest ih =>
    simp only [List.map_cons, List.find?_cons, hf]
    cases hc : (m.id == j) <;> simp [hc, ih]

/-- Appended fresh row: walks at other vertices are unchanged. -/
lemma stepM_append_ne (menus : List Menu) (row : Menu) (j : Nat) (hj : row.id ≠ j) :
    stepM (menus ++ [row]) j = stepM menus j := by
  unfold stepM
  cases hfind : menus.find? (fun m => m.id == j) with
  | none =>
    rw [find?_append_right _ _ _ (fun a ha => by
      have := List.find?_eq_none.mp hfind a ha
      simpa using this)]
    have hb : (row.id == j) = false := by simp [hj]
    simp [List.find?, hb, hfind]
  | some m => rw [find?_append_left _ _ hfind]

/-- `g` takes a subset of `f`'s steps. -/
def StepSub (g f : Nat → Option Nat) : Prop := ∀ j, g j = f j ∨ g j = none

lemma stepSub_refl (f : Nat → Option Nat) : StepSub f f := fun j => Or.inl rfl

lemma stepSub_trans {h g f : Nat → Option Nat} (h1 : StepSub h g) (h2 : StepSub g f) :
    StepSub h f := by
  intro j
  rcases h1 j with hg | hn
  · rcases h2 j with hf | hn'
    · exact Or.inl (hg.trans hf)
    · exact Or.inr (hg.trans hn')
  · exact Or.inr hn

/-- Removing all rows with a given id only removes steps. -/
lemma stepM_removeId_sub (menus : List Menu) (mid : Nat) :
    StepSub (stepM (menus.filter (fun m => !(m.id == mid)))) (stepM menus) := by
  intro j
  by_cases hj : j = mid
  · right
    subst hj
    unfold stepM
    rw [List.find?_eq_none.mpr (fun x hx => by
      have := (List.mem_filter.mp hx).2
      simpa using this)]
    rfl
  · left
    unfold stepM
    rw [find?_filter_of_imp _ _ (fun a ha => by
      simp only [beq_iff_eq] at ha
      simp [ha, hj])]

lemma cycleWalk_mono (menus : List Menu) (X : Nat) :
    ∀ (f1 f2 : Nat) (cur : Option Nat) (vs : List Nat), f1 ≤ f2 →
      cycleWalk menus X f1 cur vs = true → cycleWalk menus X f2 cur vs = true := by
  intro f1
  induction f1 with
  | zero =>
    intro f2 cur vs _ h
    exact absurd h (by simp [cycleWalk])
  | succ f1 ih =>
    intro f2 cur vs hle h
    obtain ⟨f2', rfl⟩ : ∃ f2', f2 = f2' + 1 := ⟨f2 - 1, by omega⟩
    cases cur with
    | none => simp [cycleWalk] at h
    | some c =>
      simp only [cycleWalk] at h ⊢
      by_cases hv : c ∈ vs
      · rw [if_pos hv] at h
        exact absurd h (by simp)
      · rw [if_neg hv] at h ⊢
        by_cases hx : (c == X) = true
        · rw [if_pos hx]
        · rw [if_neg hx] at h ⊢
          exact ih f2' _ _ (by omega) h

/-- On an acyclic store the `_would_create_cycle` walk detects every genuine
ancestor relation: if `X` is reachable from `p` along parent links, the walk
started at `p` returns `True`. -/
lemma cycleWalk_true_of_reach (menus : List Menu) (X p : Nat)
    (hacyc : MenuAcyclic menus)
    (hreach : ∃ k, iterS (stepM menus) k (some p) = some X) :
    wouldCreateCycle menus X p = true := by
  classical
  obtain ⟨k₀, hk₀, hmin⟩ : ∃ k₀, iterS (stepM menus) k₀ (some p) = some X ∧
      ∀ t, t < k₀ → iterS (stepM menus) t (some p) ≠ some X :=
    ⟨Nat.find hreach, Nat.find_spec hreach, fun t ht => Nat.find_min hreach ht⟩
  have hsome : ∀ t, t ≤ k₀ → ∃ c, iterS (stepM menus) t (some p) = some c := by
    intro t ht
    cases hc : iterS (stepM menus) t (some p) with
    | none =>
      exfalso
      have hnone : iterS (stepM menus) k₀ (some p) = none := by
        rw [show k₀ = t + (k₀ - t) from by omega, iterS_add, hc, iterS_none]
      rw [hk₀] at hnone
      exact Option.noConfusion hnone
    | some c => exact ⟨c, rfl⟩
  have hinj : ∀ t1 t2, t1 < t2 → t2 ≤ k₀ →
      iterS (stepM menus) t1 (some p) ≠ iterS (stepM menus) t2 (some p) := by
    intro t1 t2 h12 h2k heq
    obtain ⟨c, hc⟩ := hsome t1 (by omega)
    have h1 : iterS (stepM menus) (t1 + (t2 - t1)) (some p) =
        iterS (stepM menus) (t2 - t1) (some c) := by
      rw [iterS_add, hc]
    rw [show t1 + (t2 - t1) = t2 from by omega] at h1
    rw [← heq, hc] at h1
    exact iterS_no_period hacyc c (t2 - t1) (by omega) h1.symm
  have hmem : ∀ t, t < k₀ → ∀ c, iterS (stepM menus) t (some p) = some c →
      c ∈ menus.map (fun m => m.id) := by
    intro t ht c hc
    obtain ⟨c', hc'⟩ := hsome (t + 1) (by omega)
    rw [iterS_succ_right, hc] at hc'
    have hstep : stepM menus c = some c' := hc'
    unfold stepM at hstep
    cases hfind : menus.find? (fun m => m.id == c) with
    | none => rw [hfind] at hstep; exact absurd hstep (by simp)
    | some m =>
      have hid : m.id = c := by
        have := List.find?_some hfind
        simpa using this
      exact List.mem_map.mpr ⟨m, List.mem_of_find?_eq_some hfind, hid⟩
  have hk₀le : k₀ ≤ menus.length := by
    by_contra hgt
    push_neg at hgt
    have hmaps : ∀ a ∈ Finset.range k₀,
        (iterS (stepM menus) a (some p)).getD 0 ∈
          (menus.map (fun m => m.id)).toFinset := by
      intro t htr
      have ht : t < k₀ := Finset.mem_range.mp htr
      obtain ⟨c, hc⟩ := hsome t (by omega)
      rw [hc]
      exact List.mem_toFinset.mpr (hmem t ht c hc)
    have hinj' : Set.InjOn (fun t => (iterS (stepM menus) t (some p)).getD 0)
        (Finset.range k₀) := by
      intro t1 h1 t2 h2 hg
      simp only [Finset.coe_range, Set.mem_Iio] at h1 h2
      by_contra hne
      obtain ⟨c1, hc1⟩ := hsome t1 (by omega)
      obtain ⟨c2, hc2⟩ := hsome t2 (by omega)
      have hg' : (iterS (stepM menus) t1 (some p)).getD 0 =
          (iterS (stepM menus) t2 (some p)).getD 0 := hg
      rw [hc1, hc2, Option.getD_some, Option.getD_some] at hg'
      rcases Nat.lt_or_ge t1 t2 with hlt | hge
      · exact hinj t1 t2 hlt (by omega) (by rw [hc1, hc2, hg'])
      · have hlt : t2 < t1 := by omega
        exact hinj t2 t1 hlt (by omega) (by rw [hc1, hc2, hg'])
    have hcard := Finset.card_le_card_of_injOn _ hmaps hinj'
    rw [Finset.card_range] at hcard
    have hle2 := List.toFinset_card_le (menus.map (fun m => m.id))
    rw [List.length_map] at hle2
    omega
  have hwalk : ∀ d t (vs : List Nat), t + d = k₀ →
      (∀ x ∈ vs, ∃ t', t' < t ∧ iterS (stepM menus) t' (some p) = some x) →
      cycleWalk menus X (d + 1) (iterS (stepM menus) t (some p)) vs = true := by
    intro d
    induction d with
    | zero =>
      intro t vs ht hvs
      have hteq : t = k₀ := by omega
      subst hteq
      rw [hk₀]
      have hnm : X ∉ vs := by
        intro hx
        obtain ⟨t', ht', hceq⟩ := hvs X hx
        exact hmin t' ht' hceq
      simp [cycleWalk, hnm]
    | succ d ih =>
      intro t vs ht hvs
      obtain ⟨c, hc⟩ := hsome t (by omega)
      rw [hc]
      have hcnm : c ∉ vs := by
        intro hx
        obtain ⟨t', ht', hceq⟩ := hvs c hx
        exact hinj t' t ht' (by omega) (by rw [hceq, hc])
      have hcne : c ≠ X := by
        intro hEq
        exact hmin t (by omega) (by rw [hc, hEq])
      simp only [cycleWalk]
      rw [if_neg hcnm, if_neg (by simp [hcne])]
      have hstep : stepM menus c = iterS (stepM menus) (t + 1) (some p) := by
        rw [iterS_succ_right, hc]
        rfl
      rw [hstep]
      refine ih (t + 1) (c :: vs) (by omega) ?_
      intro x hx
      rcases List.mem_cons.mp hx with hxc | hxv
      · exact ⟨t, by omega, by rw [hxc]; exact hc⟩
      · obtain ⟨t', ht', hceq⟩ := hvs x hxv
        exact ⟨t', by omega, hceq⟩
  have h0 := hwalk k₀ 0 [] (by omega) (by intro x hx; exact absurd hx (List.not_mem_nil x))
  unfold wouldCreateCycle
  exact cycleWalk_mono menus X (k₀ + 1) (menus.length + 2) (some p) [] (by omega) h0

/-- A decidable sufficient condition for `MenuAcyclic`: every row's parent walk
reaches a root within `menus.length + 1` steps. -/
lemma menuAcyclic_of_check (menus : List Menu)
    (h : menus.all (fun m =>
      iterS (stepM menus) (menus.length + 1) (some m.id) == none) = true) :
    MenuAcyclic menus := by
  intro i
  by_cases hid : ∃ m ∈ menus, m.id = i
  · obtain ⟨m, hm, hmi⟩ := hid
    refine ⟨menus.length + 1, ?_⟩
    have hb := List.all_eq_true.mp h m hm
    rw [← hmi]
    simpa using hb
  · refine ⟨1, ?_⟩
    have hfind : menus.find? (fun m => m.id == i) = none := by
      apply List.find?_eq_none.mpr
      intro m hm
      simp only [beq_iff_eq]
      exact fun hmi => hid ⟨m, hm, hmi⟩
    show iterS (stepM menus) 0 ((some i).bind (stepM menus)) = none
    simp [iterS, stepM, hfind]

lemma deleteChildren_stepSub
    (f : Nat → Bool → MenuStore → MenuStore × Except MenuErr (Nat × String))
    (hf : ∀ mid cascade s, StepSub (stepM (f mid cascade s).1.menus) (stepM s.menus)) :
    ∀ (l : List Menu) (acc : Nat) (s : MenuStore),
      StepSub (stepM (deleteChildren f l acc s).1.menus) (stepM s.menus) := by
  intro l
  induction l with
  | nil => intro acc s; exact stepSub_refl _
  | cons c rest ih =>
    intro acc s
    rw [deleteChildren]
    rcases hres : f c.id true s with ⟨s', r⟩
    have hsub1 : StepSub (stepM s'.menus) (stepM s.menus) := by
      have h := hf c.id true s
      rw [hres] at h
      exact h
    cases r with
    | error e => exact hsub1
    | ok nv => exact stepSub_trans (ih (acc + nv.1) s') hsub1

/-- Every run of `delete_menu` — cascading or not, successful or aborted
part-way — only ever removes rows, so its step graph is a sub-graph of the
original. -/
lemma delete_menu_stepSub : ∀ (fuel mid : Nat) (cascade : Bool) (s : MenuStore),
    StepSub (stepM (delete_menu fuel mid cascade s).1.menus) (stepM s.menus) := by
  intro fuel
  induction fuel with
  | zero => intro mid cascade s; exact stepSub_refl _
  | succ fuel ih =>
    intro mid cascade s
    rw [delete_menu]
    cases hfind : s.menus.find? (fun m => m.id == mid) with
    | none => exact stepSub_refl _
    | some menu =>
      dsimp only
      by_cases hguard :
          (!(s.menus.filter (fun m => m.parent_id == some mid)).isEmpty && !cascade) = true
      · rw [if_pos hguard]
        exact stepSub_refl _
      · rw [if_neg hguard]
        rcases hdc : deleteChildren (delete_menu fuel)
            (s.menus.filter (fun m => m.parent_id == some mid)) 0 s with ⟨s', r⟩
        have hsub1 : StepSub (stepM s'.menus) (stepM s.menus) := by
          have h := deleteChildren_stepSub (delete_menu fuel)
            (fun mid' c' st => ih mid' c' st)
            (s.menus.filter (fun m => m.parent_id == some mid)) 0 s
          rw [hdc] at h
          exact h
        cases r with
        | error e => exact hsub1
        | ok n => exact stepSub_trans (stepM_removeId_sub s'.menus mid) hsub1

/-- Appending a row with a fresh id whose parent points into the old table
preserves acyclicity (this is what `create_menu` does). -/
lemma append_fresh_acyclic (menus : List Menu) (row : Menu) (N : Nat)
    (hids : ∀ m ∈ menus, m.id < N)
    (hpar : ∀ m ∈ menus, ∀ p, m.parent_id = some p → p < N)
    (hrow : row.id = N)
    (hrowpar : ∀ p, row.parent_id = some p → p < N)
    (hacyc : MenuAcyclic menus) :
    MenuAcyclic (menus ++ [row]) := by
  have hag : ∀ j, j ≠ N → stepM (menus ++ [row]) j = stepM menus j := by
    intro j hj
    exact stepM_append_ne menus row j (by rw [hrow]; exact fun h => hj h.symm)
  have hfresh : menus.find? (fun m => m.id == N) = none := by
    apply List.find?_eq_none.mpr
    intro m hm
    simp only [beq_iff_eq]
    have := hids m hm
    omega
  have hgX : stepM (menus ++ [row]) N = row.parent_id := by
    unfold stepM
    rw [find?_append_right _ _ _ (fun a ha => by
      have := List.find?_eq_none.mp hfresh a ha
      simpa using this)]
    have hb : (row.id == N) = true := by simp [hrow]
    simp [List.find?, hb]
  have hnr : ∀ k, iterS (stepM menus) k (stepM (menus ++ [row]) N) ≠ some N := by
    rw [hgX]
    intro k hk
    cases hrp : row.parent_id with
    | none => rw [hrp, iterS_none] at hk; exact Option.noConfusion hk
    | some p =>
      rw [hrp] at hk
      have hlt := iterS_lt_bound menus N hpar k p N (hrowpar p hrp) hk
      omega
  exact terminates_reroute N hag hnr hacyc

lemma menuParentMissing_false_found {menu_data : MenuData} {menus : List Menu}
    (h : ¬ menuParentMissing menu_data menus = true) :
    ∀ pid, menu_data.parent_id.join = some pid →
      (menus.find? (fun m => m.id == pid)).isSome = true := by
  intro pid hj
  rw [menuParentMissing, hj] at h
  dsimp only at h
  simpa using h

/-- `create_menu` preserves acyclicity on every input (error or success):
the inserted row has a fresh id and its parent, when set, is an existing menu. -/
lemma create_menu_preserves_acyclic (s : MenuStore) (menu_data : MenuData)
    (hWF : MenuWF s) (hacyc : MenuAcyclic s.menus) :
    MenuAcyclic (create_menu menu_data s).1.menus := by
  rw [create_menu]
  cases hk : menu_data.menu_key with
  | none => exact hacyc
  | some mkey =>
    dsimp only
    split
    · exact hacyc
    · split
      · exact hacyc
      · rename_i hdup hpm
        cases hn : menu_data.menu_name with
        | none => exact hacyc
        | some mname =>
          dsimp only
          show MenuAcyclic (s.menus ++ [newMenuRow menu_data mkey mname s.nextId])
          refine append_fresh_acyclic s.menus _ s.nextId hWF.1 hWF.2 rfl ?_ hacyc
          intro p hp
          have hp' : menu_data.parent_id.join = some p := hp
          have hfound := menuParentMissing_false_found hpm p hp'
          obtain ⟨m, hm⟩ := Option.isSome_iff_exists.mp hfound
          have hid : m.id = p := by simpa using List.find?_some hm
          have := hWF.1 m (List.mem_of_find?_eq_some hm)
          omega

lemma menuParentErr_none_walk {menu_data : MenuData} {menu_id : Nat} {menus : List Menu}
    (h : menuParentErr menu_data menu_id menus = none) :
    ∀ pid, menu_data.parent_id.join = some pid →
      wouldCreateCycle menus menu_id pid = false := by
  intro pid hj
  rw [menuParentErr, hj] at h
  dsimp only at h
  by_cases h1 : (pid == menu_id) = true
  · rw [if_pos h1] at h
    exact absurd h (by simp)
  · rw [if_neg h1] at h
    by_cases h2 : (!(menus.find? (fun m => m.id == pid)).isSome) = true
    · rw [if_pos h2] at h
      exact absurd h (by simp)
    · rw [if_neg h2] at h
      cases hb : wouldCreateCycle menus menu_id pid with
      | false => rfl
      | true =>
        rw [if_pos hb] at h
        exact absurd h (by simp)

/-- The `setattr` phase of a successful `update_menu` run preserves
acyclicity, given that the cycle walk passed for any truthy new parent. -/
lemma update_apply_acyclic (menus : List Menu) (X : Nat) (menu_data : MenuData) (menu : Menu)
    (hfind : menus.find? (fun m => m.id == X) = some menu)
    (hacyc : MenuAcyclic menus)
    (hok : ∀ pid, menu_data.parent_id.join = some pid →
      wouldCreateCycle menus X pid = false) :
    MenuAcyclic (menus.map (fun m => if m.id == X then applyMenuData menu_data m else m)) := by
  have hfid : ∀ m : Menu, (if m.id == X then applyMenuData menu_data m else m).id = m.id := by
    intro m
    by_cases h : (m.id == X) = true <;> simp [h, applyMenuData]
  have hne : ∀ j, j ≠ X →
      stepM (menus.map (fun m => if m.id == X then applyMenuData menu_data m else m)) j =
        stepM menus j := by
    intro j hj
    unfold stepM
    rw [find?_map_id _ hfid j]
    cases hf2 : menus.find? (fun m => m.id == j) with
    | none => rfl
    | some m =>
      have hid : m.id = j := by simpa using List.find?_some hf2
      have hidne : ¬ m.id = X := by rw [hid]; exact hj
      simp [hidne]
  have hgX :
      stepM (menus.map (fun m => if m.id == X then applyMenuData menu_data m else m)) X =
        menu_data.parent_id.getD menu.parent_id := by
    unfold stepM
    rw [find?_map_id _ hfid X, hfind]
    have hideq : menu.id = X := by simpa using List.find?_some hfind
    simp [hideq, applyMenuData]
  cases hpd : menu_data.parent_id with
  | none =>
    refine terminates_sub (fun j => ?_) hacyc
    by_cases hj : j = X
    · subst hj
      left
      rw [hgX, hpd]
      unfold stepM
      rw [hfind]
      rfl
    · exact Or.inl (hne j hj)
  | some pv =>
    cases pv with
    | none =>
      refine terminates_sub (fun j => ?_) hacyc
      by_cases hj : j = X
      · subst hj
        right
        rw [hgX, hpd]
        rfl
      · exact Or.inl (hne j hj)
    | some pid =>
      have hjoin : menu_data.parent_id.join = some pid := by rw [hpd]; rfl
      have hw := hok pid hjoin
      have hnr : ∀ k, iterS (stepM menus) k
          (stepM (menus.map (fun m => if m.id == X then applyMenuData menu_data m else m)) X)
          ≠ some X := by
        rw [hgX, hpd]
        show ∀ k, iterS (stepM menus) k (some pid) ≠ some X
        intro k hk
        have := cycleWalk_true_of_reach menus X pid hacyc ⟨k, hk⟩
        rw [hw] at this
        exact Bool.noConfusion this
      exact terminates_reroute X hne hnr hacyc

/-- `update_menu` preserves acyclicity on every input (error or success). -/
lemma update_menu_preserves_acyclic (s : MenuStore) (X : Nat) (menu_data : MenuData)
    (hacyc : MenuAcyclic s.menus) :
    MenuAcyclic (update_menu X menu_data s).1.menus := by
  rw [update_menu]
  cases hfind : s.menus.find? (fun m => m.id == X) with
  | none => exact hacyc
  | some menu =>
    dsimp only
    split
    · exact hacyc
    · split
      · exact hacyc
      · rename_i hkc hperr
        show MenuAcyclic
          (s.menus.map (fun m => if m.id == X then applyMenuData menu_data m else m))
        exact update_apply_acyclic s.menus X menu_data menu hfind hacyc
          (menuParentErr_none_walk hperr)

/-- Setting a menu's parent to itself or to one of its own descendants makes
`update_menu` fail with the store untouched (every failure path of the
function returns the input store unchanged, and under the reach hypothesis
the success path is unreachable). -/
lemma update_menu_rejects_descendant (s : MenuStore) (X pid : Nat) (menu_data : MenuData)
    (hacyc : MenuAcyclic s.menus)
    (hpd : menu_data.parent_id = some (some pid))
    (hreach : ∃ k, iterS (stepM s.menus) k (some pid) = some X) :
    ∃ e, update_menu X menu_data s = (s, Except.error e) := by
  rw [update_menu]
  cases hfind : s.menus.find? (fun m => m.id == X) with
  | none => exact ⟨_, rfl⟩
  | some menu =>
    dsimp only
    by_cases hkc : menuKeyConflict menu_data menu X s.menus = true
    · rw [if_pos hkc]
      exact ⟨_, rfl⟩
    · rw [if_neg hkc]
      have hjoin : menu_data.parent_id.join = some pid := by rw [hpd]; rfl
      have hw := cycleWalk_true_of_reach s.menus X pid hacyc hreach
      have hperr : ∃ e, menuParentErr menu_data X s.menus = some e := by
        rw [menuParentErr, hjoin]
        dsimp only
        by_cases h1 : (pid == X) = true
        · rw [if_pos h1]
          exact ⟨_, rfl⟩
        · rw [if_neg h1]
          by_cases h2 : (!(s.menus.find? (fun m => m.id == pid)).isSome) = true
          · rw [if_pos h2]
            exact ⟨_, rfl⟩
          · rw [if_neg h2, if_pos hw]
            exact ⟨_, rfl⟩
      obtain ⟨e, he⟩ := hperr
      rw [he]
      exact ⟨e, rfl⟩

/-- C8 — menu-tree acyclicity: an update request that would set a menu's
parent to itself or to one of its own descendants (anything whose parent walk
reaches the menu) fails with the store returned unchanged — no field is
written; and each of `create_menu`, `update_menu` and `delete_menu` (cascading
or not, on any outcome) keeps the parent-id graph over the `menus` table
acyclic. -/
theorem menu_acyclicity_preserved :
    (∀ (s : MenuStore) (X pid : Nat) (menu_data : MenuData),
        MenuAcyclic s.menus →
        menu_data.parent_id = some (some pid) →
        (∃ k, iterS (stepM s.menus) k (some pid) = some X) →
        ∃ e, update_menu X menu_data s = (s, Except.error e)) ∧
    (∀ (s : MenuStore) (menu_data : MenuData),
        MenuWF s → MenuAcyclic s.menus →
        MenuAcyclic (create_menu menu_data s).1.menus) ∧
    (∀ (s : MenuStore) (X : Nat) (menu_data : MenuData),
        MenuAcyclic s.menus →
        MenuAcyclic (update_menu X menu_data s).1.menus) ∧
    (∀ (fuel X : Nat) (cascade : Bool) (s : MenuStore),
        MenuAcyclic s.menus →
        MenuAcyclic (delete_menu fuel X cascade s).1.menus) :=
  ⟨fun s X pid menu_data ha hpd hr =>
      update_menu_rejects_descendant s X pid menu_data ha hpd hr,
   fun s menu_data hwf ha => create_menu_preserves_acyclic s menu_data hwf ha,
   fun s X menu_data ha => update_menu_preserves_acyclic s X menu_data ha,
   fun fuel X c s ha => terminates_sub (delete_menu_stepSub fuel X c s) ha⟩

/-- A two-row menu store: `Root` (id 1) with child `Child` (id 2). -/
def menuRowA : Menu :=
  { id := 1, menu_key := "root", menu_name := "Root", menu_type := "menu",
    parent_id := none, icon := none, path := none, sort_order := 0,
    is_active := true, description := none }

def menuRowB : Menu :=
  { menuRowA with id := 2, menu_key := "child", menu_name := "Child", parent_id := some 1 }

def menuStoreW : MenuStore := { menus := [menuRowA, menuRowB], roleMenus := [], nextId := 3 }

theorem menu_acyclicity_preserved_witness :
    (∃ e, update_menu 1 { parent_id := some (some 2) } menuStoreW =
        (menuStoreW, Except.error e)) ∧
    MenuAcyclic
      (create_menu { menu_key := some "k", menu_name := some "n" } menuStoreW).1.menus ∧
    MenuAcyclic (update_menu 2 { parent_id := some none } menuStoreW).1.menus ∧
    MenuAcyclic (delete_menu 3 1 true menuStoreW).1.menus :=
  ⟨menu_acyclicity_preserved.1 menuStoreW 1 2 { parent_id := some (some 2) }
      (menuAcyclic_of_check _ (by decide)) rfl ⟨1, by decide⟩,
   menu_acyclicity_preserved.2.1 menuStoreW { menu_key := some "k", menu_name := some "n" }
      ⟨by decide, by
        intro m hm p hp
        have hm' : m ∈ [menuRowA, menuRowB] := hm
        fin_cases hm' <;> simp [menuRowA, menuRowB, menuStoreW] at hp ⊢ <;> omega⟩
      (menuAcyclic_of_check _ (by decide)),
   menu_acyclicity_preserved.2.2.1 menuStoreW 2 { parent_id := some none }
      (menuAcyclic_of_check _ (by decide)),
   menu_acyclicity_preserved.2.2.2 3 1 true menuStoreW
      (menuAcyclic_of_check _ (by decide))⟩

/-!
### §6  Passport service — magic-link encrypted tokens

Shallow embedding of `libs/passport.py` (class `PassportService`):
`_encrypt_payload` / `_decrypt_payload` (AES-256-CBC with PKCS7 padding, the
random IV prepended to the ciphertext, base64-encoded) and
`issue_encrypted` / `verify_encrypted` (an HS256 JWT wrapping the encrypted
string under the `encrypted` claim with `sub = "magic_link_encrypted"`).

Byte strings are `List Nat`.  The external primitives — the AES-256 block
cipher (`Crypto.Cipher.AES`), base64 (`base64.b64encode`/`b64decode`), JSON
(`json.dumps`/`json.loads`) and the HS256 signature (`jwt.encode`'s HMAC) —
are parameters of the embedding, collected in `CryptoCtx` together with the
IV drawn by `get_random_bytes(16)`; `CryptoOK` states the inversion
properties those libraries provide.  Everything written in the repo — CBC
chaining, PKCS7 `pad`/`unpad`, the `iv + encrypted_data` layout and its
16-byte split, the JWT claim layout and the checks of `verify_encrypted` —
is translated concretely.  The base64 text and the JSON text are represented
by their byte sequences. -/

/-- Byte-wise XOR of two blocks. -/
def xorB (a b : List Nat) : List Nat := List.zipWith Nat.xor a b

/-- Split a byte string into 16-byte blocks (fuel-driven; `chunk16` supplies
enough fuel for any input). -/
def chunk16Aux : Nat → List Nat → List (List Nat)
  | _, [] => []
  | 0, _ :: _ => []
  | fuel + 1, a :: rest => ((a :: rest).take 16) :: chunk16Aux fuel ((a :: rest).drop 16)

def chunk16 (l : List Nat) : List (List Nat) := chunk16Aux l.length l

/-- CBC encryption (`AES.new(key, AES.MODE_CBC, iv).encrypt`): each plaintext
block is XORed with the previous ciphertext block (initially the IV) before
the block cipher. -/
def cbcEnc (encB : List Nat → List Nat) : List Nat → List (List Nat) → List (List Nat)
  | _, [] => []
  | prev, p :: ps => encB (xorB prev p) :: cbcEnc encB (encB (xorB prev p)) ps

/-- CBC decryption (`cipher.decrypt`). -/
def cbcDec (decB : List Nat → List Nat) : List Nat → List (List Nat) → List (List Nat)
  | _, [] => []
  | prev, c :: cs => xorB prev (decB c) :: cbcDec decB c cs

/-- PKCS7 padding to the 16-byte block size (`Crypto.Util.Padding.pad`):
append `n` copies of the byte `n` where `n = 16 - len % 16`. -/
def pad16 (b : List Nat) : List Nat :=
  b ++ List.replicate (16 - b.length % 16) (16 - b.length % 16)

/-- PKCS7 unpadding (`Crypto.Util.Padding.unpad`): the length must be a
multiple of the block size, the last byte `v` must satisfy
`1 ≤ v ≤ min 16 len`, and the last `v` bytes must all equal `v`; `none`
models the raised `ValueError`. -/
def unpad16 (b : List Nat) : Option (List Nat) :=
  if b.length % 16 ≠ 0 then none
  else
    match b.getLast? with
    | none => none
    | some v =>
      if v < 1 ∨ min 16 b.length < v then none
      else if b.drop (b.length - v) ≠ List.replicate v v then none
      else some (b.take (b.length - v))

/-- The claims of the outer JWT: `encrypted` (the base64 text, as bytes),
`sub`, and `exp` (absent on tokens issued by `issue_encrypted`). -/
structure OuterClaims where
  encrypted : Option (List Nat) := none
  sub : Option String := none
  exp : Option Nat := none
  deriving Repr, DecidableEq

/-- An encoded JWT: its claims and its HS256 signature. -/
structure JwtToken where
  claims : OuterClaims
  sig : List Nat
  deriving Repr, DecidableEq

/-- The `jwt` library errors `verify_encrypted` distinguishes. -/
inductive JwtError where
  | expiredSignature
  | invalidSignature
  | decodeError
  deriving Repr, DecidableEq

/-- The external primitives used by `PassportService` (plus the IV drawn by
`get_random_bytes(16)`), over an abstract payload type `α`. -/
structure CryptoCtx (α : Type) where
  encBlock : List Nat → List Nat
  decBlock : List Nat → List Nat
  b64encode : List Nat → List Nat
  b64decode : List Nat → List Nat
  dumps : α → List Nat
  loads : List Nat → Option α
  mac : OuterClaims → List Nat
  iv : List Nat

/-- The inversion and length properties the crypto libraries guarantee. -/
def CryptoOK {α : Type} (C : CryptoCtx α) : Prop :=
  (∀ b, C.decBlock (C.encBlock b) = b) ∧
  (∀ b, b.length = 16 → (C.encBlock b).length = 16) ∧
  (∀ bs, C.b64decode (C.b64encode bs) = bs) ∧
  (∀ p, C.loads (C.dumps p) = some p) ∧
  C.iv.length = 16

/-- `jwt.encode(claims, sk, algorithm="HS256")`. -/
def jwt_encode {α : Type} (C : CryptoCtx α) (claims : OuterClaims) : JwtToken :=
  { claims := claims, sig := C.mac claims }

/-- `jwt.decode(token, sk, algorithms=["HS256"])`: the signature is verified
first; then a present `exp` claim at or before `now` raises
`ExpiredSignatureError`. -/
def jwt_decode {α : Type} (C : CryptoCtx α) (now : Nat) (tok : JwtToken) :
    Except JwtError OuterClaims :=
  if tok.sig ≠ C.mac tok.claims then .error .invalidSignature
  else
    match tok.claims.exp with
    | some e => if e ≤ now then .error .expiredSignature else .ok tok.claims
    | none => .ok tok.claims

/-- `PassportService._encrypt_payload`: JSON-serialize, PKCS7-pad, CBC-encrypt
under `iv`, prepend the IV and base64 the whole thing. -/
def encrypt_payload {α : Type} (C : CryptoCtx α) (payload : α) : List Nat :=
  C.b64encode (C.iv ++ (cbcEnc C.encBlock C.iv (chunk16 (pad16 (C.dumps payload)))).flatten)

/-- `PassportService._decrypt_payload`: base64-decode, split off the 16-byte
IV, CBC-decrypt, unpad and JSON-parse; `none` models the `ValueError`
(`Decryption failed`) that the function wraps every failure into. -/
def decrypt_payload {α : Type} (C : CryptoCtx α) (encrypted_payload : List Nat) : Option α :=
  let combined := C.b64decode encrypted_payload
  match unpad16 ((cbcDec C.decBlock (combined.take 16) (chunk16 (combined.drop 16))).flatten) with
  | none => none
  | some pt => C.loads pt

/-- `PassportService.issue_encrypted`: encrypt the payload and sign
`{"encrypted": ..., "sub": "magic_link_encrypted"}` — note no `exp` claim. -/
def issue_encrypted {α : Type} (C : CryptoCtx α) (payload : α) : JwtToken :=
  jwt_encode C
    { encrypted := some (encrypt_payload C payload), sub := some "magic_link_encrypted" }

/-- `PassportService.verify_encrypted`: decode and check the JWT, require the
`encrypted` claim plus `sub == "magic_link_encrypted"`, then decrypt.  Every
`.error msg` models a raised `Unauthorized(msg)`. -/
def verify_encrypted {α : Type} (C : CryptoCtx α) (now : Nat) (token : JwtToken) :
    Except String α :=
  match jwt_decode C now token with
  | .error .expiredSignature => .error "Token has expired."
  | .error .invalidSignature => .error "Invalid token signature."
  | .error .decodeError => .error "Invalid token."
  | .ok decoded =>
    match decoded.encrypted with
    | some enc =>
      if decoded.sub == some "magic_link_encrypted" then
        match decrypt_payload C enc with
        | some p => .ok p
        | none => .error "Token decryption failed"
      else .error "Token is not encrypted or invalid format."
    | none => .error "Token is not encrypted or invalid format."

lemma xorB_cancel : ∀ (a b : List Nat), a.length = b.length → xorB a (xorB a b) = b := by
  intro a
  induction a with
  | nil =>
    intro b h
    cases b with
    | nil => rfl
    | cons y ys => simp at h
  | cons x xs ih =>
    intro b h
    cases b with
    | nil => simp at h
    | cons y ys =>
      simp only [xorB, List.zipWith_cons_cons] at *
      have hx : Nat.xor x (Nat.xor x y) = y := by
        rw [show Nat.xor x (Nat.xor x y) = x ^^^ (x ^^^ y) from rfl, ← Nat.xor_assoc,
          Nat.xor_self, Nat.zero_xor]
      rw [hx, ih ys (by simpa using h)]

lemma length_xorB (a b : List Nat) : (xorB a b).length = min a.length b.length :=
  List.length_zipWith Nat.xor a b

lemma chunk16Aux_flatten : ∀ (bs : List (List Nat)) (fuel : Nat),
    (∀ b ∈ bs, b.length = 16) → bs.flatten.length ≤ fuel →
    chunk16Aux fuel bs.flatten = bs := by
  intro bs
  induction bs with
  | nil => intro fuel _ _; cases fuel <;> rfl
  | cons b rest ih =>
    intro fuel hlen hfuel
    have hb : b.length = 16 := hlen b (by simp)
    obtain ⟨a, tl, rfl⟩ : ∃ a tl, b = a :: tl := by
      cases b with
      | nil => simp at hb
      | cons a tl => exact ⟨a, tl, rfl⟩
    rw [List.flatten_cons] at hfuel ⊢
    obtain ⟨f, rfl⟩ : ∃ f, fuel = f + 1 := by
      refine ⟨fuel - 1, ?_⟩
      rw [List.length_append] at hfuel
      simp only [List.length_cons] at hfuel
      omega
    rw [List.cons_append, chunk16Aux, ← List.cons_append]
    have htake : ((a :: tl) ++ rest.flatten).take 16 = a :: tl := by
      rw [← hb]
      exact List.take_left _ _
    have hdrop : ((a :: tl) ++ rest.flatten).drop 16 = rest.flatten := by
      rw [← hb]
      exact List.drop_left _ _
    rw [htake, hdrop, ih f (fun x hx => hlen x (by simp [hx])) (by
      rw [List.length_append] at hfuel
      simp only [List.length_cons] at hb hfuel
      omega)]

/-- Splitting the concatenation of 16-byte blocks recovers the blocks. -/
lemma chunk16_flatten (bs : List (List Nat)) (hlen : ∀ b ∈ bs, b.length = 16) :
    chunk16 bs.flatten = bs :=
  chunk16Aux_flatten bs bs.flatten.length hlen (Nat.le_refl _)

lemma flatten_chunk16Aux : ∀ (fuel : Nat) (l : List Nat), l.length ≤ fuel →
    (chunk16Aux fuel l).flatten = l := by
  intro fuel
  induction fuel with
  | zero =>
    intro l hl
    have hnil : l = [] := List.length_eq_zero.mp (by omega)
    subst hnil
    rfl
  | succ fuel ih =>
    intro l hl
    cases l with
    | nil => rfl
    | cons a rest =>
      rw [chunk16Aux, List.flatten_cons, ih ((a :: rest).drop 16) (by
        rw [List.length_drop]
        simp only [List.length_cons] at hl ⊢
        omega)]
      exact List.take_append_drop 16 (a :: rest)

lemma flatten_chunk16 (l : List Nat) : (chunk16 l).flatten = l :=
  flatten_chunk16Aux l.length l (Nat.le_refl _)

lemma chunk16Aux_lengths : ∀ (fuel : Nat) (l : List Nat), l.length ≤ fuel →
    l.length % 16 = 0 → ∀ b ∈ chunk16Aux fuel l, b.length = 16 := by
  intro fuel
  induction fuel with
  | zero =>
    intro l hl _ b hb
    have hnil : l = [] := List.length_eq_zero.mp (by omega)
    subst hnil
    simp [chunk16Aux] at hb
  | succ fuel ih =>
    intro l hl hmod b hb
    cases l with
    | nil => simp [chunk16Aux] at hb
    | cons a rest =>
      rw [chunk16Aux] at hb
      simp only [List.length_cons] at hl hmod
      rcases List.mem_cons.mp hb with hbt | hbr
      · rw [hbt, List.length_take]
        simp only [List.length_cons]
        omega
      · refine ih ((a :: rest).drop 16) ?_ ?_ b hbr
        · rw [List.length_drop]
          simp only [List.length_cons]
          omega
        · rw [List.length_drop]
          simp only [List.length_cons]
          omega

lemma chunk16_lengths (l : List Nat) (hmod : l.length % 16 = 0) :
    ∀ b ∈ chunk16 l, b.length = 16 :=
  chunk16Aux_lengths l.length l (Nat.le_refl _) hmod

/-- Every block of the ciphertext stream has the block size. -/
lemma cbcEnc_lengths (encB : List Nat → List Nat)
    (hlen : ∀ b, b.length = 16 → (encB b).length = 16) :
    ∀ (ps : List (List Nat)) (prev : List Nat), prev.length = 16 →
      (∀ p ∈ ps, p.length = 16) →
      ∀ c ∈ cbcEnc encB prev ps, c.length = 16 := by
  intro ps
  induction ps with
  | nil => intro prev _ _ c hc; simp [cbcEnc] at hc
  | cons p ps ih =>
    intro prev hprev hps c hc
    have hp : p.length = 16 := hps p (by simp)
    have hx : (xorB prev p).length = 16 := by
      rw [length_xorB, hprev, hp]
      exact Nat.min_self 16
    have hcfst : (encB (xorB prev p)).length = 16 := hlen _ hx
    rw [cbcEnc] at hc
    rcases List.mem_cons.mp hc with h1 | h2
    · rw [h1]; exact hcfst
    · exact ih (encB (xorB prev p)) hcfst (fun q hq => hps q (by simp [hq])) c h2

/-- CBC decryption inverts CBC encryption block-wise. -/
lemma cbcDec_cbcEnc (encB decB : List Nat → List Nat)
    (hinv : ∀ b, decB (encB b) = b)
    (hlen : ∀ b, b.length = 16 → (encB b).length = 16) :
    ∀ (ps : List (List Nat)) (prev : List Nat), prev.length = 16 →
      (∀ p ∈ ps, p.length = 16) →
      cbcDec decB prev (cbcEnc encB prev ps) = ps := by
  intro ps
  induction ps with
  | nil => intro prev _ _; rfl
  | cons p ps ih =>
    intro prev hprev hps
    have hp : p.length = 16 := hps p (by simp)
    rw [cbcEnc, cbcDec, hinv, xorB_cancel prev p (by rw [hprev, hp])]
    have hx : (xorB prev p).length = 16 := by
      rw [length_xorB, hprev, hp]
      exact Nat.min_self 16
    rw [ih (encB (xorB prev p)) (hlen _ hx) (fun q hq => hps q (by simp [hq]))]

lemma getLast?_append_ne {α : Type} : ∀ (l₁ l₂ : List α), l₂ ≠ [] →
    (l₁ ++ l₂).getLast? = l₂.getLast? := by
  intro l₁
  induction l₁ with
  | nil => intro l₂ _; rfl
  | cons a l ih =>
    intro l₂ h
    have hne : l ++ l₂ ≠ [] := by simp [h]
    obtain ⟨b, tl, htl⟩ : ∃ b tl, l ++ l₂ = b :: tl := by
      cases hx : l ++ l₂ with
      | nil => exact absurd hx hne
      | cons b tl => exact ⟨b, tl, rfl⟩
    rw [List.cons_append, htl, List.getLast?_cons_cons, ← htl, ih l₂ h]

lemma getLast?_replicate_pos (v : Nat) : ∀ n : Nat, 1 ≤ n →
    (List.replicate n v).getLast? = some v := by
  intro n
  induction n with
  | zero => intro h; omega
  | succ n ih =>
    intro _
    rcases Nat.eq_zero_or_pos n with h0 | hpos
    · subst h0; rfl
    · obtain ⟨m, rfl⟩ : ∃ m, n = m + 1 := ⟨n - 1, by omega⟩
      rw [show List.replicate (m + 1 + 1) v = v :: v :: List.replicate m v from rfl,
        List.getLast?_cons_cons]
      exact ih hpos

lemma pad16_length_mod (b : List Nat) : (pad16 b).length % 16 = 0 := by
  have h := Nat.mod_lt b.length (show 0 < 16 by omega)
  simp only [pad16, List.length_append, List.length_replicate]
  omega

/-- PKCS7 unpadding inverts PKCS7 padding. -/
lemma unpad16_pad16 (b : List Nat) : unpad16 (pad16 b) = some b := by
  have hmod := Nat.mod_lt b.length (show 0 < 16 by omega)
  have hn1 : 1 ≤ 16 - b.length % 16 := by omega
  have hn16 : 16 - b.length % 16 ≤ 16 := by omega
  have hlenp : (pad16 b).length = b.length + (16 - b.length % 16) := by
    simp [pad16]
  rw [unpad16, if_neg (by rw [pad16_length_mod]; omega)]
  have hlast : (pad16 b).getLast? = some (16 - b.length % 16) := by
    rw [pad16, getLast?_append_ne _ _ (by
      intro hEq
      have hc := congrArg List.length hEq
      simp at hc
      omega)]
    exact getLast?_replicate_pos _ _ hn1
  rw [hlast]
  dsimp only
  rw [if_neg (by
    push_neg
    refine ⟨hn1, le_min hn16 ?_⟩
    rw [hlenp]
    omega)]
  have hsub : (pad16 b).length - (16 - b.length % 16) = b.length := by
    rw [hlenp]
    omega
  have hdrop : (pad16 b).drop b.length =
      List.replicate (16 - b.length % 16) (16 - b.length % 16) := by
    rw [pad16]
    exact List.drop_left b _
  have htake : (pad16 b).take b.length = b := by
    rw [pad16]
    exact List.take_left b _
  rw [hsub, if_neg (by rw [hdrop]; simp), htake]

/-- `_decrypt_payload` inverts `_encrypt_payload` whenever the external
primitives invert each other. -/
lemma decrypt_encrypt {α : Type} (C : CryptoCtx α) (payload : α) (hOK : CryptoOK C) :
    decrypt_payload C (encrypt_payload C payload) = some payload := by
  obtain ⟨hinv, hlen, hb64, hloads, hiv⟩ := hOK
  unfold decrypt_payload encrypt_payload
  dsimp only
  rw [hb64]
  have htake : (C.iv ++
      (cbcEnc C.encBlock C.iv (chunk16 (pad16 (C.dumps payload)))).flatten).take 16 = C.iv := by
    rw [← hiv]
    exact List.take_left _ _
  have hdrop : (C.iv ++
      (cbcEnc C.encBlock C.iv (chunk16 (pad16 (C.dumps payload)))).flatten).drop 16 =
      (cbcEnc C.encBlock C.iv (chunk16 (pad16 (C.dumps payload)))).flatten := by
    rw [← hiv]
    exact List.drop_left _ _
  rw [htake, hdrop]
  rw [chunk16_flatten _ (cbcEnc_lengths C.encBlock hlen _ C.iv hiv
    (chunk16_lengths _ (pad16_length_mod _)))]
  rw [cbcDec_cbcEnc C.encBlock C.decBlock hinv hlen _ C.iv hiv
    (chunk16_lengths _ (pad16_length_mod _))]
  rw [flatten_chunk16, unpad16_pad16]
  dsimp only
  rw [hloads]

/-- A successfully decoded token yields exactly its claims. -/
lemma jwt_decode_ok {α : Type} {C : CryptoCtx α} {now : Nat} {tok : JwtToken}
    {cl : OuterClaims} (h : jwt_decode C now tok = .ok cl) : cl = tok.claims := by
  unfold jwt_decode at h
  by_cases h1 : tok.sig ≠ C.mac tok.claims
  · rw [if_pos h1] at h
    exact absurd h (by simp)
  · rw [if_neg h1] at h
    cases hexp : tok.claims.exp with
    | some e =>
      rw [hexp] at h
      dsimp only at h
      by_cases h2 : e ≤ now
      · rw [if_pos h2] at h
        exact absurd h (by simp)
      · rw [if_neg h2] at h
        exact (Except.ok.inj h).symm
    | none =>
      rw [hexp] at h
      dsimp only at h
      exact (Except.ok.inj h).symm

/-- C2 — magic-link encrypted token round-trip: with the libraries' inversion
properties (`CryptoOK`), `verify_encrypted` recovers exactly the payload that
`issue_encrypted` encrypted (the issued token carries no `exp`, so it never
expires); a token with a tampered signature fails with the
`Invalid token signature.` Unauthorized error; a token whose `exp` has passed
(signature valid) fails with `Token has expired.`; and a token not carrying
the `encrypted` claim together with `sub = "magic_link_encrypted"` fails with
some Unauthorized error — in particular none of these ever return a payload. -/
theorem magic_link_token_roundtrip :
    (∀ (α : Type) (C : CryptoCtx α) (now : Nat) (payload : α), CryptoOK C →
        verify_encrypted C now (issue_encrypted C payload) = Except.ok payload) ∧
    (∀ (α : Type) (C : CryptoCtx α) (now : Nat) (tok : JwtToken),
        tok.sig ≠ C.mac tok.claims →
        verify_encrypted C now tok = Except.error "Invalid token signature.") ∧
    (∀ (α : Type) (C : CryptoCtx α) (now : Nat) (tok : JwtToken) (e : Nat),
        tok.sig = C.mac tok.claims → tok.claims.exp = some e → e ≤ now →
        verify_encrypted C now tok = Except.error "Token has expired.") ∧
    (∀ (α : Type) (C : CryptoCtx α) (now : Nat) (tok : JwtToken),
        tok.claims.encrypted = none ∨ tok.claims.sub ≠ some "magic_link_encrypted" →
        ∃ msg, verify_encrypted C now tok = Except.error msg) := by
  refine ⟨?_, ?_, ?_, ?_⟩
  · intro α C now payload hOK
    unfold verify_encrypted issue_encrypted jwt_encode jwt_decode
    rw [if_neg (fun h => h rfl)]
    dsimp only
    rw [if_pos (by simp)]
    rw [decrypt_encrypt C payload hOK]
  · intro α C now tok hsig
    unfold verify_encrypted jwt_decode
    rw [if_pos hsig]
  · intro α C now tok e hsig hexp hle
    unfold verify_encrypted jwt_decode
    rw [if_neg (fun h => h hsig), hexp]
    dsimp only
    rw [if_pos hle]
  · intro α C now tok hbad
    unfold verify_encrypted
    cases hdec : jwt_decode C now tok with
    | error e => cases e <;> exact ⟨_, rfl⟩
    | ok decoded =>
      have hdc : decoded = tok.claims := jwt_decode_ok hdec
      subst hdc
      dsimp only
      rcases hbad with hnone | hsub
      · rw [hnone]
        exact ⟨_, rfl⟩
      · cases henc : tok.claims.encrypted with
        | none => exact ⟨_, rfl⟩
        | some enc =>
          dsimp only
          rw [if_neg (by simp [hsub])]
          exact ⟨_, rfl⟩

/-- The identity instantiation of the external primitives (payloads are byte
lists, the block cipher and base64 are the identity, the MAC is constant). -/
def idCryptoCtx : CryptoCtx (List Nat) :=
  { encBlock := id, decBlock := id, b64encode := id, b64decode := id,
    dumps := id, loads := some, mac := fun _ => [], iv := List.replicate 16 0 }

theorem magic_link_token_roundtrip_witness :
    verify_encrypted idCryptoCtx 0 (issue_encrypted idCryptoCtx [1, 2, 3]) =
      Except.ok [1, 2, 3] ∧
    verify_encrypted idCryptoCtx 0 { claims := {}, sig := [9] } =
      Except.error "Invalid token signature." ∧
    verify_encrypted idCryptoCtx 5 { claims := { exp := some 4 }, sig := [] } =
      Except.error "Token has expired." ∧
    (∃ msg, verify_encrypted idCryptoCtx 0 { claims := { sub := some "x" }, sig := [] } =
      Except.error msg) :=
  ⟨magic_link_token_roundtrip.1 _ idCryptoCtx 0 [1, 2, 3]
      ⟨fun _ => rfl, fun _ h => h, fun _ => rfl, fun _ => rfl, rfl⟩,
   magic_link_token_roundtrip.2.1 _ idCryptoCtx 0 _ (by decide),
   magic_link_token_roundtrip.2.2.1 _ idCryptoCtx 5 _ 4 rfl rfl (by omega),
   magic_link_token_roundtrip.2.2.2 _ idCryptoCtx 0 _ (Or.inl rfl)⟩

end Spec2Proof
